import Mathlib

/-!
Verification of the BWGA Nexus regional investment system.

Shallow embedding over ℚ of the scoring, tier-classification, risk-assessment
and matching code in:
  src/investment_algorithm.py            (namespace IA)
  src/enhanced_investment_algorithm.py   (namespace EIA)
  src/revolutionary_system.py            (namespace RS)
  src/revolutionary_regional_system.py   (namespace RRS)
Python floats are modelled as exact rationals; Python round (round-half-even)
is modelled by rhe below; Python int() truncation by intTrunc.
-/

/-- Clamp to the interval [0, 100]; models Python max(0, min(100, x)). -/
def clamp0100 (x : ℚ) : ℚ := max 0 (min 100 x)

/-- Round half to even to an integer; models Python round on exact values. -/
def rhe (q : ℚ) : ℤ :=
  if Int.fract q < 1/2 then ⌊q⌋
  else if 1/2 < Int.fract q then ⌊q⌋ + 1
  else if ⌊q⌋ % 2 = 0 then ⌊q⌋ else ⌊q⌋ + 1

/-- Python round(x, 1). -/
def round1 (q : ℚ) : ℚ := (rhe (q * 10) : ℚ) / 10

/-- Python round(x, 2). -/
def round2 (q : ℚ) : ℚ := (rhe (q * 100) : ℚ) / 100

/-- Python round(x, 3). -/
def round3 (q : ℚ) : ℚ := (rhe (q * 1000) : ℚ) / 1000

/-- Python int() applied to a float: truncation toward zero. -/
def intTrunc (q : ℚ) : ℤ := if 0 ≤ q then ⌊q⌋ else -⌊-q⌋

/-- Membership test used to model Python substring membership (pat in s). -/
def containsSub (s pat : String) : Bool := (s.splitOn pat).length > 1

/-- Python str.lower(): character-wise lowercasing. -/
def pyLower (s : String) : String := String.mk (s.data.map Char.toLower)


/-- Stable insertion into a list sorted non-increasingly by score: x moves
past exactly the elements with strictly greater score, so equal scores keep
their original relative order. -/
def insertDescBy {α : Type} (score : α → ℚ) (x : α) : List α → List α
  | [] => [x]
  | y :: ys => if score x < score y then y :: insertDescBy score x ys else x :: y :: ys

/-- Stable sort, non-increasing by score; models Python list.sort with
key and reverse=True, which is stable. -/
def sortDescBy {α : Type} (score : α → ℚ) : List α → List α
  | [] => []
  | a :: l => insertDescBy score a (sortDescBy score l)

namespace IA

/-- Investment tiers of src/investment_algorithm.py. -/
inductive InvestmentTier where
  | TIER_1
  | TIER_2
  | TIER_3
deriving DecidableEq

def InvestmentTier.value : InvestmentTier → String
  | .TIER_1 => "Tier 1 - Premium Investment"
  | .TIER_2 => "Tier 2 - Strategic Investment"
  | .TIER_3 => "Tier 3 - Emerging Opportunity"

def InvestmentTier.name : InvestmentTier → String
  | .TIER_1 => "TIER_1"
  | .TIER_2 => "TIER_2"
  | .TIER_3 => "TIER_3"

/-- Risk levels of src/investment_algorithm.py. -/
inductive RiskLevel where
  | LOW
  | MEDIUM
  | HIGH
  | CRITICAL
deriving DecidableEq

def RiskLevel.value : RiskLevel → String
  | .LOW => "Low Risk"
  | .MEDIUM => "Medium Risk"
  | .HIGH => "High Risk"
  | .CRITICAL => "Critical Risk"

/-- Severity rank of a risk level (LOW lowest, CRITICAL highest). -/
def RiskLevel.rank : RiskLevel → ℕ
  | .LOW => 0
  | .MEDIUM => 1
  | .HIGH => 2
  | .CRITICAL => 3

inductive IndustryType where
  | MANUFACTURING
  | TECHNOLOGY
  | LOGISTICS
  | FINANCE
  | HEALTHCARE
  | ENERGY
  | RETAIL
  | REAL_ESTATE
deriving DecidableEq

/-- RegionalMetrics dataclass of src/investment_algorithm.py. -/
structure RegionalMetrics where
  city : String
  country : String
  region : String
  population : ℤ
  gdp_per_capita : ℚ
  infrastructure_score : ℚ
  talent_availability : ℚ
  cost_of_living : ℚ
  tax_rate : ℚ
  regulatory_ease : ℚ
  market_access : ℚ
  political_stability : ℚ
  growth_rate : ℚ
  inflation_rate : ℚ
  currency_stability : ℚ
  digital_infrastructure : ℚ
  supply_chain_efficiency : ℚ
  innovation_index : ℚ
  sustainability_score : ℚ
  geopolitical_risk : ℚ
  market_volatility : ℚ

/-- CompanyProfile dataclass of src/investment_algorithm.py. -/
structure CompanyProfile where
  company_type : String
  investment_size : String
  preferred_region : String
  industry_focus : String
  risk_tolerance : String
  timeline : String
  technology_requirements : List String
  supply_chain_needs : List String
  sustainability_goals : List String
  digital_transformation_needs : List String
  market_expansion_targets : List String
  competitive_advantages : List String

/-- The industry_mapping lookup in _get_industry_type, with its
MANUFACTURING fallback for unmapped industry strings. -/
def getIndustryType (industry_focus : String) : IndustryType :=
  match pyLower industry_focus with
  | "manufacturing" => .MANUFACTURING
  | "tech" => .TECHNOLOGY
  | "technology" => .TECHNOLOGY
  | "logistics" => .LOGISTICS
  | "finance" => .FINANCE
  | "healthcare" => .HEALTHCARE
  | "energy" => .ENERGY
  | "retail" => .RETAIL
  | "real_estate" => .REAL_ESTATE
  | _ => .MANUFACTURING

/-- The industry_multipliers table: the entry for (industry, component),
none when the table has no entry. -/
def industryMultiplierTable : IndustryType → String → Option ℚ
  | .TECHNOLOGY, "talent" => some 1.3
  | .TECHNOLOGY, "digital_readiness" => some 1.4
  | .TECHNOLOGY, "innovation" => some 1.5
  | .TECHNOLOGY, "cost_efficiency" => some 0.9
  | .MANUFACTURING, "infrastructure" => some 1.2
  | .MANUFACTURING, "supply_chain" => some 1.3
  | .MANUFACTURING, "cost_efficiency" => some 1.1
  | .MANUFACTURING, "talent" => some 0.9
  | .LOGISTICS, "infrastructure" => some 1.4
  | .LOGISTICS, "market_access" => some 1.3
  | .LOGISTICS, "supply_chain" => some 1.2
  | .LOGISTICS, "cost_efficiency" => some 1.1
  | .FINANCE, "regulatory" => some 1.3
  | .FINANCE, "political_stability" => some 1.2
  | .FINANCE, "talent" => some 1.1
  | .FINANCE, "market_access" => some 1.1
  | _, _ => none

/-- _apply_industry_multiplier: multiply when the table has an entry,
otherwise return the base score unchanged. -/
def applyIndustryMultiplier (base : ℚ) (component : String) (it : IndustryType) : ℚ :=
  match industryMultiplierTable it component with
  | some m => base * m
  | none => base

/-- _calculate_infrastructure_score. -/
def infrastructureScore (rd : RegionalMetrics) (it : IndustryType) : ℚ :=
  let base := applyIndustryMultiplier (rd.infrastructure_score * 100) "infrastructure" it
  let base := if rd.infrastructure_score > 0.8 then base + 10 else base
  let base := if rd.infrastructure_score < 0.4 then base - 20 else base
  clamp0100 base

/-- _calculate_talent_score. -/
def talentScore (rd : RegionalMetrics) (cp : CompanyProfile) (it : IndustryType) : ℚ :=
  let base := applyIndustryMultiplier (rd.talent_availability * 100) "talent" it
  let base :=
    if cp.company_type = "tech" then base * 1.2
    else if cp.company_type = "manufacturing" then base * 0.9
    else base
  let base :=
    if rd.population > 1000000 then base + 5
    else if rd.population < 100000 then base - 10
    else base
  clamp0100 base

/-- _calculate_cost_efficiency. -/
def costEfficiency (rd : RegionalMetrics) (cp : CompanyProfile) (it : IndustryType) : ℚ :=
  let ce := applyIndustryMultiplier ((1 - rd.cost_of_living) * 100) "cost_efficiency" it
  let te := applyIndustryMultiplier ((1 - rd.tax_rate) * 100) "regulatory" it
  let ce :=
    if cp.investment_size = "large" then ce * 1.1
    else if cp.investment_size = "small" then ce * 0.9
    else ce
  let ce :=
    if rd.cost_of_living < 0.3 then ce + 15
    else if rd.cost_of_living > 0.7 then ce - 10
    else ce
  clamp0100 ((ce + te) / 2)

/-- _calculate_market_access. -/
def marketAccess (rd : RegionalMetrics) (it : IndustryType) : ℚ :=
  let base := applyIndustryMultiplier (rd.market_access * 100) "market_access" it
  let base :=
    if rd.region = "asia-pacific" then base + 10
    else if rd.region = "europe" then base + 8
    else if rd.region = "americas" then base + 6
    else base
  clamp0100 base

/-- _calculate_regulatory_score. -/
def regulatoryScore (rd : RegionalMetrics) (it : IndustryType) : ℚ :=
  let base := applyIndustryMultiplier (rd.regulatory_ease * 100) "regulatory" it
  let base :=
    if rd.regulatory_ease > 0.7 then base + 10
    else if rd.regulatory_ease < 0.3 then base - 15
    else base
  clamp0100 base

/-- _calculate_political_stability. -/
def politicalStabilityScore (rd : RegionalMetrics) : ℚ :=
  let base := rd.political_stability * 100
  let base :=
    if rd.political_stability > 0.8 then base + 10
    else if rd.political_stability < 0.4 then base - 20
    else base
  clamp0100 base

/-- _calculate_growth_potential. -/
def growthPotential (rd : RegionalMetrics) (_cp : CompanyProfile) : ℚ :=
  let g := rd.growth_rate * 100
  let g :=
    if rd.gdp_per_capita > 50000 then g * 0.8
    else if rd.gdp_per_capita < 10000 then g * 1.3
    else g
  let g := if rd.population > 5000000 then g + 5 else g
  clamp0100 g

/-- _calculate_risk_factors. -/
def riskFactorsScore (rd : RegionalMetrics) (cp : CompanyProfile) : ℚ :=
  let r : ℚ := 100
  let r := if rd.currency_stability < 0.5 then r - 20 else r
  let r := if rd.inflation_rate > 0.1 then r - 15 else r
  let r := if rd.political_stability < 0.5 then r - 25 else r
  let r :=
    if cp.risk_tolerance = "low" then r * 1.2
    else if cp.risk_tolerance = "high" then r * 0.8
    else r
  clamp0100 r

/-- _calculate_digital_readiness: placeholder constant in this variant. -/
def digitalReadiness (_rd : RegionalMetrics) (_cp : CompanyProfile) : ℚ := 50

/-- _calculate_sustainability_score: placeholder constant in this variant. -/
def sustainabilityScoreC (_rd : RegionalMetrics) (_cp : CompanyProfile) : ℚ := 50

/-- _calculate_innovation_score: placeholder constant in this variant. -/
def innovationScore (_rd : RegionalMetrics) (_cp : CompanyProfile) : ℚ := 50

/-- _calculate_supply_chain_score: placeholder constant in this variant. -/
def supplyChainScore (_rd : RegionalMetrics) (_cp : CompanyProfile) : ℚ := 50

/-- The weighted sum over the 12 component scores with the weights table
of AdvancedRegionalInvestmentAlgorithm.__init__. -/
def compositeScore (rd : RegionalMetrics) (cp : CompanyProfile) : ℚ :=
  let it := getIndustryType cp.industry_focus
  0.12 * infrastructureScore rd it +
  0.10 * talentScore rd cp it +
  0.15 * costEfficiency rd cp it +
  0.12 * marketAccess rd it +
  0.08 * regulatoryScore rd it +
  0.07 * politicalStabilityScore rd +
  0.10 * growthPotential rd cp +
  0.08 * riskFactorsScore rd cp +
  0.06 * digitalReadiness rd cp +
  0.05 * sustainabilityScoreC rd cp +
  0.04 * innovationScore rd cp +
  0.03 * supplyChainScore rd cp

/-- The tier_thresholds table. -/
def tierThreshold : InvestmentTier → ℚ
  | .TIER_1 => 85
  | .TIER_2 => 70
  | .TIER_3 => 55

/-- _determine_investment_tier. -/
def determineInvestmentTier (s : ℚ) : InvestmentTier :=
  if s ≥ tierThreshold .TIER_1 then .TIER_1
  else if s ≥ tierThreshold .TIER_2 then .TIER_2
  else .TIER_3

/-- _calculate_break_even_time. -/
def calculateBreakEvenTime (roi : ℚ) (_cp : CompanyProfile) : String :=
  if roi > 20 then "2-3 years"
  else if roi > 15 then "3-4 years"
  else if roi > 10 then "4-5 years"
  else "5+ years"

structure RoiProjection where
  projected_roi : ℚ
  time_to_break_even : String

/-- _calculate_roi_projection (projected ROI and break-even fields). -/
def calculateRoiProjection (composite : ℚ) (rd : RegionalMetrics)
    (cp : CompanyProfile) : RoiProjection :=
  let base : ℚ := 12
  let base :=
    if composite > 85 then base + 8
    else if composite > 70 then base + 4
    else if composite < 55 then base - 6
    else base
  let base := base + rd.growth_rate * 100
  let base :=
    if cp.investment_size = "large" then base + 2
    else if cp.investment_size = "small" then base - 1
    else base
  let base := if cp.timeline = "long-term" then base + 3 else base
  { projected_roi := round2 base
    time_to_break_even := calculateBreakEvenTime base cp }

structure CostSavings where
  annual_savings_millions : ℚ
  savings_percentage : ℚ
  operational_savings : ℚ
  tax_savings : ℚ
  labor_savings : ℚ
  five_year_savings : ℚ

/-- _calculate_cost_savings. -/
def calculateCostSavings (rd : RegionalMetrics) (cp : CompanyProfile) : CostSavings :=
  let operational := (1 - rd.cost_of_living) * 40
  let tax := rd.tax_rate * 25
  let labor := (1 - rd.talent_availability) * 30
  let total := operational + tax + labor
  let mult : ℚ :=
    if cp.investment_size = "enterprise" then 1000
    else if cp.investment_size = "large" then 100
    else if cp.investment_size = "medium" then 10
    else 1
  let annual := total * mult
  { annual_savings_millions := round1 annual
    savings_percentage := round1 total
    operational_savings := round1 operational
    tax_savings := round1 tax
    labor_savings := round1 labor
    five_year_savings := round1 (annual * 5) }

/-- _generate_mitigation_strategies. -/
def generateMitigationStrategies (risk_factors : List String) : List String :=
  risk_factors.filterMap (fun risk =>
    if containsSub (pyLower risk) "currency" then
      some "Implement currency hedging strategies"
    else if containsSub (pyLower risk) "political" then
      some "Establish local partnerships and government relations"
    else if containsSub (pyLower risk) "regulatory" then
      some "Engage local legal and compliance experts"
    else if containsSub (pyLower risk) "market access" then
      some "Develop alternative market entry strategies"
    else if containsSub (pyLower risk) "inflation" then
      some "Implement cost escalation clauses in contracts"
    else none)

/-- _generate_insurance_recommendations. -/
def generateInsuranceRecommendations (lv : RiskLevel) : List String :=
  match lv with
  | .LOW => ["Standard business insurance", "Property insurance"]
  | .MEDIUM =>
      ["Political risk insurance", "Currency risk insurance", "Enhanced liability coverage"]
  | .HIGH =>
      ["Comprehensive political risk insurance", "War and terrorism coverage",
       "Expropriation insurance"]
  | .CRITICAL =>
      ["Specialized high-risk insurance package", "Government-backed insurance programs"]

structure RiskAssessment where
  risk_level : String
  risk_score : ℚ
  risk_factors : List String
  mitigation_strategies : List String
  insurance_recommendations : List String

/-- The risk level and factor list computed by _generate_risk_assessment:
each triggered check appends its factor and overwrites the level with its
own severity, in source order; if nothing triggered, the minimal-risk
sentinel is appended and the level stays LOW. -/
def riskChecks (rd : RegionalMetrics) : RiskLevel × List String :=
  let lv := RiskLevel.LOW
  let fs : List String := []
  let (fs, lv) :=
    if rd.currency_stability < 0.5 then
      (fs ++ ["Currency volatility risk"], RiskLevel.MEDIUM)
    else (fs, lv)
  let (fs, lv) :=
    if rd.political_stability < 0.6 then
      (fs ++ ["Political instability risk"], RiskLevel.HIGH)
    else (fs, lv)
  let (fs, lv) :=
    if rd.regulatory_ease < 0.4 then
      (fs ++ ["Regulatory complexity risk"], RiskLevel.MEDIUM)
    else (fs, lv)
  let (fs, lv) :=
    if rd.market_access < 0.5 then
      (fs ++ ["Limited market access risk"], RiskLevel.MEDIUM)
    else (fs, lv)
  let (fs, lv) :=
    if rd.inflation_rate > 0.08 then
      (fs ++ ["High inflation risk"], RiskLevel.HIGH)
    else (fs, lv)
  let fs := if fs = [] then ["Minimal risk factors identified"] else fs
  (lv, fs)

/-- _generate_risk_assessment. -/
def generateRiskAssessment (rd : RegionalMetrics) (_cp : CompanyProfile) : RiskAssessment :=
  let (lv, fs) := riskChecks rd
  { risk_level := lv.value
    risk_score := round1 (rd.political_stability * 100)
    risk_factors := fs
    mitigation_strategies := generateMitigationStrategies fs
    insurance_recommendations := generateInsuranceRecommendations lv }

/-- The severity each risk check contributes in _generate_risk_assessment:
the level it assigns when it triggers. -/
def checkSeverity (factor : String) : RiskLevel :=
  if factor = "Currency volatility risk" then .MEDIUM
  else if factor = "Political instability risk" then .HIGH
  else if factor = "Regulatory complexity risk" then .MEDIUM
  else if factor = "Limited market access risk" then .MEDIUM
  else if factor = "High inflation risk" then .HIGH
  else .LOW

/-- _calculate_confidence_level. -/
def calculateConfidenceLevel (composite : ℚ) : String :=
  if composite > 85 then "Very High (95%)"
  else if composite > 70 then "High (85%)"
  else if composite > 55 then "Medium (75%)"
  else "Low (65%)"

/-- The 12 rounded component scores reported in the result. -/
structure ComponentScores where
  infrastructure : ℚ
  talent : ℚ
  cost_efficiency : ℚ
  market_access : ℚ
  regulatory : ℚ
  political_stability : ℚ
  growth_potential : ℚ
  risk_factors : ℚ
  digital_readiness : ℚ
  sustainability : ℚ
  innovation : ℚ
  supply_chain : ℚ

structure AlgorithmResult where
  composite_score : ℚ
  investment_tier : String
  tier_level : String
  roi_projection : RoiProjection
  cost_savings : CostSavings
  risk_assessment : RiskAssessment
  component_scores : ComponentScores
  confidence_level : String

/-- calculate_investment_score of src/investment_algorithm.py (pure fields;
the analysis_timestamp and free-text report fields are omitted). -/
def calculateInvestmentScore (rd : RegionalMetrics) (cp : CompanyProfile) : AlgorithmResult :=
  let it := getIndustryType cp.industry_focus
  let composite := compositeScore rd cp
  let tier := determineInvestmentTier composite
  { composite_score := round2 composite
    investment_tier := tier.value
    tier_level := tier.name
    roi_projection := calculateRoiProjection composite rd cp
    cost_savings := calculateCostSavings rd cp
    risk_assessment := generateRiskAssessment rd cp
    component_scores :=
      { infrastructure := round2 (infrastructureScore rd it)
        talent := round2 (talentScore rd cp it)
        cost_efficiency := round2 (costEfficiency rd cp it)
        market_access := round2 (marketAccess rd it)
        regulatory := round2 (regulatoryScore rd it)
        political_stability := round2 (politicalStabilityScore rd)
        growth_potential := round2 (growthPotential rd cp)
        risk_factors := round2 (riskFactorsScore rd cp)
        digital_readiness := round2 (digitalReadiness rd cp)
        sustainability := round2 (sustainabilityScoreC rd cp)
        innovation := round2 (innovationScore rd cp)
        supply_chain := round2 (supplyChainScore rd cp) }
    confidence_level := calculateConfidenceLevel composite }

end IA

namespace EIA

/-- Investment tiers of src/enhanced_investment_algorithm.py. -/
inductive InvestmentTier where
  | TIER_1
  | TIER_2
  | TIER_3
deriving DecidableEq

def InvestmentTier.value : InvestmentTier → String
  | .TIER_1 => "Tier 1 - Premium Investment"
  | .TIER_2 => "Tier 2 - Strategic Investment"
  | .TIER_3 => "Tier 3 - Emerging Opportunity"

def InvestmentTier.name : InvestmentTier → String
  | .TIER_1 => "TIER_1"
  | .TIER_2 => "TIER_2"
  | .TIER_3 => "TIER_3"

/-- RegionalMetrics dataclass of src/enhanced_investment_algorithm.py
(same fields; the last six have defaults in the source). -/
structure RegionalMetrics where
  city : String
  country : String
  region : String
  population : ℤ
  gdp_per_capita : ℚ
  infrastructure_score : ℚ
  talent_availability : ℚ
  cost_of_living : ℚ
  tax_rate : ℚ
  regulatory_ease : ℚ
  market_access : ℚ
  political_stability : ℚ
  growth_rate : ℚ
  inflation_rate : ℚ
  currency_stability : ℚ
  digital_infrastructure : ℚ := 0.7
  supply_chain_efficiency : ℚ := 0.6
  innovation_index : ℚ := 0.5
  sustainability_score : ℚ := 0.6
  geopolitical_risk : ℚ := 0.3
  market_volatility : ℚ := 0.4

/-- CompanyProfile dataclass of src/enhanced_investment_algorithm.py;
the three optional list fields default to None, modelled as []. -/
structure CompanyProfile where
  company_type : String
  investment_size : String
  preferred_region : String
  industry_focus : String
  risk_tolerance : String
  timeline : String
  technology_requirements : List String
  supply_chain_needs : List String
  sustainability_goals : List String := []
  digital_transformation_needs : List String := []
  market_expansion_targets : List String := []

/-- _calculate_infrastructure_score. -/
def infrastructureScore (rd : RegionalMetrics) : ℚ :=
  let base := rd.infrastructure_score * 100
  let base := if rd.infrastructure_score > 0.8 then base + 10 else base
  let base := if rd.infrastructure_score < 0.4 then base - 20 else base
  clamp0100 base

/-- _calculate_talent_score. -/
def talentScore (rd : RegionalMetrics) (cp : CompanyProfile) : ℚ :=
  let base := rd.talent_availability * 100
  let base :=
    if cp.company_type = "tech" then base * 1.2
    else if cp.company_type = "manufacturing" then base * 0.9
    else base
  let base :=
    if rd.population > 1000000 then base + 5
    else if rd.population < 100000 then base - 10
    else base
  clamp0100 base

/-- _calculate_cost_efficiency. -/
def costEfficiency (rd : RegionalMetrics) (cp : CompanyProfile) : ℚ :=
  let ce := (1 - rd.cost_of_living) * 100
  let te := (1 - rd.tax_rate) * 100
  let ce :=
    if cp.investment_size = "large" then ce * 1.1
    else if cp.investment_size = "small" then ce * 0.9
    else ce
  let ce :=
    if rd.cost_of_living < 0.3 then ce + 15
    else if rd.cost_of_living > 0.8 then ce - 20
    else ce
  clamp0100 ((ce + te) / 2)

/-- _calculate_market_access. -/
def marketAccess (rd : RegionalMetrics) : ℚ :=
  let base := rd.market_access * 100
  let base :=
    if rd.population > 5000000 then base + 15
    else if rd.population > 1000000 then base + 10
    else base
  clamp0100 base

/-- _calculate_regulatory_score. -/
def regulatoryScore (rd : RegionalMetrics) : ℚ :=
  let base := rd.regulatory_ease * 100
  let base :=
    if rd.tax_rate < 0.2 then base + 10
    else if rd.tax_rate > 0.4 then base - 15
    else base
  clamp0100 base

/-- _calculate_political_stability. -/
def politicalStabilityScore (rd : RegionalMetrics) : ℚ :=
  let base := rd.political_stability * 100
  let base :=
    if rd.geopolitical_risk < 0.2 then base + 10
    else if rd.geopolitical_risk > 0.6 then base - 20
    else base
  clamp0100 base

/-- _calculate_growth_potential. -/
def growthPotential (rd : RegionalMetrics) (cp : CompanyProfile) : ℚ :=
  let base := rd.growth_rate * 100
  let base :=
    if rd.gdp_per_capita > 50000 then base * 1.1
    else if rd.gdp_per_capita < 10000 then base * 0.9
    else base
  let base :=
    if cp.industry_focus = "technology" ∨ cp.industry_focus = "healthcare" then base * 1.2
    else base
  clamp0100 base

/-- _calculate_risk_factors. -/
def riskFactorsScore (rd : RegionalMetrics) (cp : CompanyProfile) : ℚ :=
  let r : ℚ := 100
  let r :=
    if rd.inflation_rate > 0.1 then r - 20
    else if rd.inflation_rate < 0.02 then r + 10
    else r
  let r := if rd.currency_stability < 0.5 then r - 15 else r
  let r := if rd.market_volatility > 0.7 then r - 10 else r
  let r :=
    if cp.risk_tolerance = "low" then r * 1.1
    else if cp.risk_tolerance = "high" then r * 0.9
    else r
  clamp0100 r

/-- _calculate_digital_readiness. -/
def digitalReadiness (rd : RegionalMetrics) (cp : CompanyProfile) : ℚ :=
  let base := rd.digital_infrastructure * 100
  let base := if cp.company_type = "tech" then base * 1.3 else base
  clamp0100 base

/-- _calculate_sustainability_score. -/
def sustainabilityScoreC (rd : RegionalMetrics) (cp : CompanyProfile) : ℚ :=
  let base := rd.sustainability_score * 100
  let base := if cp.sustainability_goals ≠ [] then base + 10 else base
  clamp0100 base

/-- _calculate_innovation_score. -/
def innovationScore (rd : RegionalMetrics) (cp : CompanyProfile) : ℚ :=
  let base := rd.innovation_index * 100
  let base := if cp.industry_focus = "technology" then base * 1.4 else base
  clamp0100 base

/-- _calculate_supply_chain_score. -/
def supplyChainScore (rd : RegionalMetrics) (cp : CompanyProfile) : ℚ :=
  let base := rd.supply_chain_efficiency * 100
  let base := if cp.industry_focus = "manufacturing" then base * 1.2 else base
  clamp0100 base

/-- The 12 component scores, keyed as in the component_scores dict. -/
structure ComponentScores where
  infrastructure : ℚ
  talent : ℚ
  cost_efficiency : ℚ
  market_access : ℚ
  regulatory : ℚ
  political_stability : ℚ
  growth_potential : ℚ
  risk_factors : ℚ
  digital_readiness : ℚ
  sustainability : ℚ
  innovation : ℚ
  supply_chain : ℚ

/-- The component_scores dict built in calculate_investment_score, before
industry adjustment. -/
def componentScores (rd : RegionalMetrics) (cp : CompanyProfile) : ComponentScores :=
  { infrastructure := infrastructureScore rd
    talent := talentScore rd cp
    cost_efficiency := costEfficiency rd cp
    market_access := marketAccess rd
    regulatory := regulatoryScore rd
    political_stability := politicalStabilityScore rd
    growth_potential := growthPotential rd cp
    risk_factors := riskFactorsScore rd cp
    digital_readiness := digitalReadiness rd cp
    sustainability := sustainabilityScoreC rd cp
    innovation := innovationScore rd cp
    supply_chain := supplyChainScore rd cp }

/-- The industry-specific adjustment loop of calculate_investment_score:
the industry_multipliers table is keyed by the lowercased industry focus
and multiplies the listed components in place, after their clamping;
industries not in the table change nothing. -/
def adjustScores (industry_focus : String) (cs : ComponentScores) : ComponentScores :=
  match pyLower industry_focus with
  | "technology" =>
      { cs with
        talent := cs.talent * 1.3
        digital_readiness := cs.digital_readiness * 1.4
        innovation := cs.innovation * 1.5
        cost_efficiency := cs.cost_efficiency * 0.9 }
  | "manufacturing" =>
      { cs with
        infrastructure := cs.infrastructure * 1.2
        supply_chain := cs.supply_chain * 1.3
        cost_efficiency := cs.cost_efficiency * 1.1
        talent := cs.talent * 0.9 }
  | "logistics" =>
      { cs with
        infrastructure := cs.infrastructure * 1.4
        market_access := cs.market_access * 1.3
        supply_chain := cs.supply_chain * 1.2
        cost_efficiency := cs.cost_efficiency * 1.1 }
  | "finance" =>
      { cs with
        regulatory := cs.regulatory * 1.3
        political_stability := cs.political_stability * 1.2
        talent := cs.talent * 1.1
        market_access := cs.market_access * 1.1 }
  | _ => cs

/-- The weighted sum with the weights table of
EnhancedInvestmentAlgorithm.__init__. -/
def weightedSum (cs : ComponentScores) : ℚ :=
  0.12 * cs.infrastructure +
  0.10 * cs.talent +
  0.15 * cs.cost_efficiency +
  0.12 * cs.market_access +
  0.08 * cs.regulatory +
  0.07 * cs.political_stability +
  0.10 * cs.growth_potential +
  0.08 * cs.risk_factors +
  0.06 * cs.digital_readiness +
  0.05 * cs.sustainability +
  0.04 * cs.innovation +
  0.03 * cs.supply_chain

/-- The composite score of calculate_investment_score: weighted sum of the
industry-adjusted component scores. -/
def compositeScore (rd : RegionalMetrics) (cp : CompanyProfile) : ℚ :=
  weightedSum (adjustScores cp.industry_focus (componentScores rd cp))

/-- _determine_investment_tier. -/
def determineInvestmentTier (s : ℚ) : InvestmentTier :=
  if s ≥ 85 then .TIER_1
  else if s ≥ 70 then .TIER_2
  else .TIER_3

/-- _calculate_break_even_time: None models the "N/A" sentinel, some n the
reported number of months int(12 / (roi / 100)). -/
def breakEvenMonths (roi : ℚ) : Option ℤ :=
  if roi ≤ 0 then none
  else some (intTrunc (12 / (roi / 100)))

/-- The rounded component scores of the result record. -/
def roundScores (cs : ComponentScores) : ComponentScores :=
  { infrastructure := round2 cs.infrastructure
    talent := round2 cs.talent
    cost_efficiency := round2 cs.cost_efficiency
    market_access := round2 cs.market_access
    regulatory := round2 cs.regulatory
    political_stability := round2 cs.political_stability
    growth_potential := round2 cs.growth_potential
    risk_factors := round2 cs.risk_factors
    digital_readiness := round2 cs.digital_readiness
    sustainability := round2 cs.sustainability
    innovation := round2 cs.innovation
    supply_chain := round2 cs.supply_chain }

structure AlgorithmResult where
  composite_score : ℚ
  investment_tier : String
  tier_level : String
  component_scores : ComponentScores

/-- calculate_investment_score of src/enhanced_investment_algorithm.py
(score, tier and component fields; the projection, risk and free-text
fields are independent computations not repeated here). -/
def calculateInvestmentScore (rd : RegionalMetrics) (cp : CompanyProfile) : AlgorithmResult :=
  let cs := adjustScores cp.industry_focus (componentScores rd cp)
  let composite := weightedSum cs
  let tier := determineInvestmentTier composite
  { composite_score := round2 composite
    investment_tier := tier.value
    tier_level := tier.name
    component_scores := roundScores cs }

end EIA

namespace RS

/-- EntityType enum of src/revolutionary_system.py. -/
inductive EntityType where
  | GOVERNMENT
  | COMPANY
  | INVESTOR
deriving DecidableEq

/-- DevelopmentTier enum of src/revolutionary_system.py. -/
inductive DevelopmentTier where
  | EMERGING
  | GROWING
  | ESTABLISHED
  | PREMIUM
deriving DecidableEq

def DevelopmentTier.value : DevelopmentTier → String
  | .EMERGING => "Emerging"
  | .GROWING => "Growing"
  | .ESTABLISHED => "Established"
  | .PREMIUM => "Premium"

/-- A region record of the self.regions registry. -/
structure Region where
  name : String
  tier : DevelopmentTier
  population : ℤ
  growth_rate : ℚ
  projects : List String
  match_score : ℚ := 0

/-- An entity record of the self.entities registry. -/
structure Entity where
  name : String
  etype : EntityType
  capabilities : List String
  interests : List String

/-- Python dict.get over an insertion-ordered association list. -/
def lookup {α : Type} (l : List (String × α)) (k : String) : Option α :=
  (l.find? (fun p => p.1 == k)).map (fun p => p.2)

/-- The tier multiplier dict in calculate_match (its .get default 1.0 is
unreachable: every enum member is a key). -/
def tierMultiplier : DevelopmentTier → ℚ
  | .PREMIUM => 1.2
  | .ESTABLISHED => 1.0
  | .GROWING => 0.9
  | .EMERGING => 0.8

/-- calculate_match of src/revolutionary_system.py, with the registries
passed explicitly; a missing entity or region yields 0.0. -/
def calculateMatch (entities : List (String × Entity)) (regions : List (String × Region))
    (entity_id region_id : String) : ℚ :=
  match lookup entities entity_id, lookup regions region_id with
  | some entity, some region =>
      let common := ((entity.interests.dedup).filter
        (fun i => i ∈ region.projects)).length
      let base : ℚ := (common : ℚ) / (max entity.interests.length 1 : ℕ)
      let growth_bonus := region.growth_rate / 10
      let final := (base + growth_bonus) * tierMultiplier region.tier
      min 1.0 final
  | _, _ => 0.0

/-- One entry of the list find_matches builds per qualifying region. -/
structure MatchEntry where
  region_id : String
  region_name : String
  match_score : ℚ
  tier : String
  projects : List String
  roi_projection : ℚ
  risk_level : String

/-- The match list built by find_matches before sorting: one entry per
registry region whose score exceeds the 0.3 floor, in registry order. -/
def matchCandidates (entities : List (String × Entity)) (regions : List (String × Region))
    (entity_id : String) : List MatchEntry :=
  regions.filterMap (fun p =>
    let score := calculateMatch entities regions entity_id p.1
    if score > 0.3 then
      some
        { region_id := p.1
          region_name := p.2.name
          match_score := round3 score
          tier := p.2.tier.value
          projects := p.2.projects
          roi_projection := round1 (score * 25)
          risk_level :=
            if score > 0.7 then "Low" else if score > 0.5 then "Medium" else "High" }
    else none)

/-- find_matches of src/revolutionary_system.py: filter, stable sort
descending by match_score, truncate to limit. -/
def findMatches (entities : List (String × Entity)) (regions : List (String × Region))
    (entity_id : String) (limit : ℕ := 3) : List MatchEntry :=
  (sortDescBy (fun m => m.match_score) (matchCandidates entities regions entity_id)).take limit

end RS

namespace RRS

/-- EntityType enum of src/revolutionary_regional_system.py. -/
inductive EntityType where
  | GOVERNMENT
  | COMPANY
  | INVESTOR
  | NONPROFIT
deriving DecidableEq

/-- DevelopmentTier enum of src/revolutionary_regional_system.py. -/
inductive DevelopmentTier where
  | EMERGING
  | GROWING
  | ESTABLISHED
  | PREMIUM
deriving DecidableEq

def DevelopmentTier.value : DevelopmentTier → String
  | .EMERGING => "Emerging Region"
  | .GROWING => "Growing Region"
  | .ESTABLISHED => "Established Region"
  | .PREMIUM => "Premium Region"

/-- ProjectType enum of src/revolutionary_regional_system.py. -/
inductive ProjectType where
  | INFRASTRUCTURE
  | TECHNOLOGY
  | MANUFACTURING
  | LOGISTICS
  | HEALTHCARE
  | EDUCATION
  | RENEWABLE_ENERGY
  | SMART_CITY
deriving DecidableEq

/-- RegionalProfile dataclass (contact-free fields). -/
structure RegionalProfile where
  region_id : String
  name : String
  state : String
  country : String
  population : ℤ
  gdp_per_capita : ℚ
  unemployment_rate : ℚ
  growth_rate : ℚ
  infrastructure_score : ℚ
  talent_availability : ℚ
  cost_of_living : ℚ
  tax_incentives : ℚ
  regulatory_ease : ℚ
  market_access : ℚ
  political_stability : ℚ
  development_tier : DevelopmentTier
  project_opportunities : List ProjectType
  current_projects : List String
  partner_matches : List String
  last_updated : String

/-- EntityProfile dataclass. -/
structure EntityProfile where
  entity_id : String
  name : String
  entity_type : EntityType
  description : String
  capabilities : List String
  investment_capacity : ℚ
  preferred_regions : List String
  project_interests : List ProjectType
  success_history : List String
  matching_score : ℚ
  last_updated : String

/-- The weighted regional score computed inside calculate_development_tier. -/
def devScore (region : RegionalProfile) : ℚ :=
  region.growth_rate * 0.25 +
  region.infrastructure_score * 0.20 +
  region.talent_availability * 0.15 +
  region.gdp_per_capita / 100000 * 0.15 +
  region.political_stability * 0.15 +
  (1 - region.unemployment_rate / 10) * 0.10

/-- calculate_development_tier of src/revolutionary_regional_system.py. -/
def calculateDevelopmentTier (region : RegionalProfile) : DevelopmentTier :=
  let score := devScore region
  if score ≥ 0.85 then .PREMIUM
  else if score ≥ 0.70 then .ESTABLISHED
  else if score ≥ 0.55 then .GROWING
  else .EMERGING

/-- calculate_match_score of src/revolutionary_regional_system.py:
weighted blend of the four sub-scores, rounded to 3 decimals; the source
applies no clamp. -/
def calculateMatchScore (entity : EntityProfile) (region : RegionalProfile) : ℚ :=
  let region_preference : ℚ := if region.region_id ∈ entity.preferred_regions then 1.0 else 0.5
  let project_alignment : ℚ :=
    (((entity.project_interests.dedup).filter
        (fun p => p ∈ region.project_opportunities)).length : ℚ) /
      (max entity.project_interests.length 1 : ℕ)
  let economic_compatibility :=
    (region.growth_rate / 10) * 0.3 +
    region.infrastructure_score * 0.25 +
    region.talent_availability * 0.25 +
    (1 - region.cost_of_living) * 0.2
  let risk_score :=
    region.political_stability * 0.4 +
    region.regulatory_ease * 0.3 +
    (1 - region.unemployment_rate / 10) * 0.3
  let match_score :=
    region_preference * 0.25 +
    project_alignment * 0.30 +
    economic_compatibility * 0.25 +
    risk_score * 0.20
  round3 match_score

/-- The base ROI of the roi_projection dict in
generate_match_recommendations. -/
def baseRoi (entity : EntityProfile) (region : RegionalProfile) : ℚ :=
  calculateMatchScore entity region * 25

/-- The break_even_months entry int(24 / (base_roi / 100)) of
generate_match_recommendations: the source has no roi guard, so a zero
base ROI is a ZeroDivisionError (modelled none) and a negative base ROI
yields negative months. -/
def breakEvenMonths (entity : EntityProfile) (region : RegionalProfile) : Option ℤ :=
  let roi := baseRoi entity region
  if roi = 0 then none
  else some (intTrunc (24 / (roi / 100)))

/-- find_best_matches: an entity id missing from the registry returns the
empty list; otherwise every region is scored, sorted descending by match
score (stable) and truncated. Each ranked item is reduced here to its id
and score, the fields the ordering contract concerns. -/
def findBestMatches (entities : List (String × EntityProfile))
    (regions : List RegionalProfile) (entity_id : String) (limit : ℕ := 5) :
    List (String × ℚ) :=
  match RS.lookup entities entity_id with
  | none => []
  | some entity =>
      (sortDescBy (fun m => m.2)
        (regions.map (fun r => (r.region_id, calculateMatchScore entity r)))).take limit

end RRS

/-- A company profile using only neutral categorical values: a company
type, investment size and risk tolerance outside every adjustment branch,
and the multiplier-free healthcare industry. -/
def companyMedium : IA.CompanyProfile :=
  { company_type := "other"
    investment_size := "medium"
    preferred_region := ""
    industry_focus := "healthcare"
    risk_tolerance := "medium"
    timeline := "short"
    technology_requirements := []
    supply_chain_needs := []
    sustainability_goals := []
    digital_transformation_needs := []
    market_expansion_targets := []
    competitive_advantages := [] }

/-- A valid region whose composite score falls in [84.995, 85): every
normalized field lies in [0, 1]. -/
def regionTierBoundary : IA.RegionalMetrics :=
  { city := "", country := "", region := ""
    population := 500000
    gdp_per_capita := 20000
    infrastructure_score := 0.85
    talent_availability := 1
    cost_of_living := 0.2
    tax_rate := 0.1
    regulatory_ease := 0.8
    market_access := 1
    political_stability := 0.9
    growth_rate := 0.6521
    inflation_rate := 0.03
    currency_stability := 0.9
    digital_infrastructure := 0.7
    supply_chain_efficiency := 0.6
    innovation_index := 0.5
    sustainability_score := 0.6
    geopolitical_risk := 0.3
    market_volatility := 0.4 }

/-- A region that triggers the political-stability check (severity High)
and afterwards the market-access check (severity Medium), and no other
risk check. -/
def regionRiskOrder : IA.RegionalMetrics :=
  { city := "", country := "", region := ""
    population := 500000
    gdp_per_capita := 20000
    infrastructure_score := 0.85
    talent_availability := 0.5
    cost_of_living := 0.5
    tax_rate := 0.2
    regulatory_ease := 0.5
    market_access := 0.4
    political_stability := 0.5
    growth_rate := 0.05
    inflation_rate := 0.03
    currency_stability := 0.9
    digital_infrastructure := 0.7
    supply_chain_efficiency := 0.6
    innovation_index := 0.5
    sustainability_score := 0.6
    geopolitical_risk := 0.3
    market_volatility := 0.4 }

/-- A region with infrastructure_score 0.5 (neither bonus nor penalty),
used to compare industry-multiplier handling. -/
def regionHalfInfra : IA.RegionalMetrics :=
  { regionRiskOrder with infrastructure_score := 0.5 }

/-- A valid enhanced-algorithm region with maximal talent availability. -/
def regionTalentTop : EIA.RegionalMetrics :=
  { city := "", country := "", region := ""
    population := 500000
    gdp_per_capita := 20000
    infrastructure_score := 0.5
    talent_availability := 1
    cost_of_living := 0.5
    tax_rate := 0.25
    regulatory_ease := 0.5
    market_access := 0.5
    political_stability := 0.5
    growth_rate := 0.05
    inflation_rate := 0.03
    currency_stability := 0.9 }

/-- A technology company profile for the enhanced algorithm. -/
def companyTechEIA : EIA.CompanyProfile :=
  { company_type := "tech"
    investment_size := "medium"
    preferred_region := ""
    industry_focus := "technology"
    risk_tolerance := "medium"
    timeline := "3-5 years"
    technology_requirements := []
    supply_chain_needs := [] }

/-- An entity fully aligned with region MR-1: the region is preferred and
every project interest is offered there. -/
def entityAligned : RRS.EntityProfile :=
  { entity_id := "ENT-A"
    name := "Aligned Entity"
    entity_type := .COMPANY
    description := ""
    capabilities := []
    investment_capacity := 1000000
    preferred_regions := ["MR-1"]
    project_interests := [.TECHNOLOGY]
    success_history := []
    matching_score := 0
    last_updated := "" }

/-- A region with a large growth rate (20 percent) and otherwise maximal
metrics. -/
def regionHotGrowth : RRS.RegionalProfile :=
  { region_id := "MR-1"
    name := "Hot Growth Metro"
    state := "", country := ""
    population := 1000000
    gdp_per_capita := 50000
    unemployment_rate := 0
    growth_rate := 20
    infrastructure_score := 1
    talent_availability := 1
    cost_of_living := 0
    tax_incentives := 1
    regulatory_ease := 1
    market_access := 1
    political_stability := 1
    development_tier := .PREMIUM
    project_opportunities := [.TECHNOLOGY]
    current_projects := []
    partner_matches := []
    last_updated := "" }

/-- An in-range region: growth rate in [0, 10], unemployment in [0, 10],
every normalized field in [0, 1] (the Austin sample values). -/
def regionInRange : RRS.RegionalProfile :=
  { region_id := "TX-AUS"
    name := "Austin Metro"
    state := "Texas", country := "USA"
    population := 2500000
    gdp_per_capita := 75000
    unemployment_rate := 3.2
    growth_rate := 8.5
    infrastructure_score := 0.92
    talent_availability := 0.88
    cost_of_living := 0.75
    tax_incentives := 0.85
    regulatory_ease := 0.78
    market_access := 0.90
    political_stability := 0.95
    development_tier := .PREMIUM
    project_opportunities := [.TECHNOLOGY, .SMART_CITY, .EDUCATION]
    current_projects := []
    partner_matches := []
    last_updated := "" }

/-- An entity with no preferred regions and no project interests. -/
def entityNoInterests : RRS.EntityProfile :=
  { entity_id := "ENT-N"
    name := "No Interests Entity"
    entity_type := .INVESTOR
    description := ""
    capabilities := []
    investment_capacity := 1000000
    preferred_regions := []
    project_interests := []
    success_history := []
    matching_score := 0
    last_updated := "" }

/-- A shrinking region: growth rate -20 percent, maximal cost of living,
minimal remaining metrics; a plausible registry record for a region in
economic decline. -/
def regionShrinking : RRS.RegionalProfile :=
  { region_id := "MR-D"
    name := "Declining Metro"
    state := "", country := ""
    population := 100000
    gdp_per_capita := 10000
    unemployment_rate := 10
    growth_rate := -20
    infrastructure_score := 0
    talent_availability := 0
    cost_of_living := 1
    tax_incentives := 0
    regulatory_ease := 0
    market_access := 0
    political_stability := 0
    development_tier := .EMERGING
    project_opportunities := []
    current_projects := []
    partner_matches := []
    last_updated := "" }

/-- A region scoring far below every development-tier threshold. -/
def regionDevZero : RRS.RegionalProfile :=
  { region_id := "MR-Z"
    name := "Zero Metro"
    state := "", country := ""
    population := 1
    gdp_per_capita := 0
    unemployment_rate := 0
    growth_rate := 0
    infrastructure_score := 0
    talent_availability := 0
    cost_of_living := 0
    tax_incentives := 0
    regulatory_ease := 0
    market_access := 0
    political_stability := 0
    development_tier := .EMERGING
    project_opportunities := []
    current_projects := []
    partner_matches := []
    last_updated := "" }

/-- A one-entity registry whose entity has an interest matched by no
region. -/
def entitiesOne : List (String × RS.Entity) :=
  [("E1",
    { name := "Lone Entity"
      etype := .COMPANY
      capabilities := []
      interests := ["Aerospace"] })]

/-- A one-region registry whose region has zero growth and no projects, so
every match score is 0. -/
def regionsOne : List (String × RS.Region) :=
  [("R1",
    { name := "Quiet Region"
      tier := .ESTABLISHED
      population := 100000
      growth_rate := 0
      projects := [] })]

/-- A one-region registry whose region has a negative growth rate. -/
def regionsNeg : List (String × RS.Region) :=
  [("R2",
    { name := "Shrinking Region"
      tier := .ESTABLISHED
      population := 100000
      growth_rate := -5
      projects := [] })]

/-- All 12 component scores of investment_algorithm lie in [0, 100]. -/
def IAScoresIn0100 (cs : IA.ComponentScores) : Prop :=
  (0 ≤ cs.infrastructure ∧ cs.infrastructure ≤ 100) ∧
  (0 ≤ cs.talent ∧ cs.talent ≤ 100) ∧
  (0 ≤ cs.cost_efficiency ∧ cs.cost_efficiency ≤ 100) ∧
  (0 ≤ cs.market_access ∧ cs.market_access ≤ 100) ∧
  (0 ≤ cs.regulatory ∧ cs.regulatory ≤ 100) ∧
  (0 ≤ cs.political_stability ∧ cs.political_stability ≤ 100) ∧
  (0 ≤ cs.growth_potential ∧ cs.growth_potential ≤ 100) ∧
  (0 ≤ cs.risk_factors ∧ cs.risk_factors ≤ 100) ∧
  (0 ≤ cs.digital_readiness ∧ cs.digital_readiness ≤ 100) ∧
  (0 ≤ cs.sustainability ∧ cs.sustainability ≤ 100) ∧
  (0 ≤ cs.innovation ∧ cs.innovation ≤ 100) ∧
  (0 ≤ cs.supply_chain ∧ cs.supply_chain ≤ 100)

/-- All 12 component scores of enhanced_investment_algorithm lie in
[0, 100]. -/
def EIAScoresIn0100 (cs : EIA.ComponentScores) : Prop :=
  (0 ≤ cs.infrastructure ∧ cs.infrastructure ≤ 100) ∧
  (0 ≤ cs.talent ∧ cs.talent ≤ 100) ∧
  (0 ≤ cs.cost_efficiency ∧ cs.cost_efficiency ≤ 100) ∧
  (0 ≤ cs.market_access ∧ cs.market_access ≤ 100) ∧
  (0 ≤ cs.regulatory ∧ cs.regulatory ≤ 100) ∧
  (0 ≤ cs.political_stability ∧ cs.political_stability ≤ 100) ∧
  (0 ≤ cs.growth_potential ∧ cs.growth_potential ≤ 100) ∧
  (0 ≤ cs.risk_factors ∧ cs.risk_factors ≤ 100) ∧
  (0 ≤ cs.digital_readiness ∧ cs.digital_readiness ≤ 100) ∧
  (0 ≤ cs.sustainability ∧ cs.sustainability ≤ 100) ∧
  (0 ≤ cs.innovation ∧ cs.innovation ≤ 100) ∧
  (0 ≤ cs.supply_chain ∧ cs.supply_chain ≤ 100)

theorem clamp0100_nonneg (x : ℚ) : 0 ≤ clamp0100 x := le_max_left 0 _

theorem clamp0100_le_100 (x : ℚ) : clamp0100 x ≤ 100 :=
  max_le (by norm_num) (min_le_left _ _)

theorem clamp0100_mono {a b : ℚ} (h : a ≤ b) : clamp0100 a ≤ clamp0100 b :=
  max_le_max le_rfl (min_le_min le_rfl h)

theorem rhe_le_of_le {q : ℚ} {n : ℤ} (h : q ≤ (n : ℚ)) : rhe q ≤ n := by
  have hfl : ⌊q⌋ ≤ n := Int.floor_le_floor h |>.trans_eq (Int.floor_intCast n)
  unfold rhe
  split_ifs with h1 h2 h3
  · exact hfl
  · rcases lt_or_eq_of_le hfl with hlt | heq
    · omega
    · exfalso
      have : q = (n : ℚ) := le_antisymm h (by
        have := Int.floor_le q
        rw [heq] at this
        have hf : 0 ≤ Int.fract q := Int.fract_nonneg q
        have hq : q = (n : ℚ) + Int.fract q := by
          have := Int.floor_add_fract q
          rw [heq] at this
          linarith
        nlinarith [lt_of_lt_of_le (by norm_num : (0:ℚ) < 1/2) (le_of_lt h2)])
      rw [this] at h2
      rw [Int.fract_intCast] at h2
      norm_num at h2
  · exact hfl
  · rcases lt_or_eq_of_le hfl with hlt | heq
    · omega
    · exfalso
      have hfr : Int.fract q = 1/2 := le_antisymm (not_lt.mp h2) (not_lt.mp h1)
      have hq : q = (⌊q⌋ : ℚ) + 1/2 := by
        have := Int.floor_add_fract q
        linarith [hfr ▸ this]
      rw [heq] at hq
      rw [hq] at h
      norm_num at h

theorem le_rhe_of_le {q : ℚ} {n : ℤ} (h : (n : ℚ) ≤ q) : n ≤ rhe q := by
  have hfl : n ≤ ⌊q⌋ := Int.le_floor.mpr h
  unfold rhe
  split_ifs <;> omega

theorem mem_insertDescBy {α : Type} (score : α → ℚ) (x : α) (l : List α) (z : α)
    (hz : z ∈ insertDescBy score x l) : z = x ∨ z ∈ l := by
  induction l with
  | nil => simpa [insertDescBy] using hz
  | cons y ys ih =>
      unfold insertDescBy at hz
      split_ifs at hz with h
      · rcases List.mem_cons.mp hz with hzy | hz2
        · exact Or.inr (List.mem_cons.mpr (Or.inl hzy))
        · rcases ih hz2 with h1 | h2
          · exact Or.inl h1
          · exact Or.inr (List.mem_cons.mpr (Or.inr h2))
      · rcases List.mem_cons.mp hz with hzx | hz2
        · exact Or.inl hzx
        · exact Or.inr hz2

theorem pairwise_insertDescBy {α : Type} (score : α → ℚ) (x : α) (l : List α)
    (h : l.Pairwise (fun a b => score b ≤ score a)) :
    (insertDescBy score x l).Pairwise (fun a b => score b ≤ score a) := by
  induction l with
  | nil => simp [insertDescBy]
  | cons y ys ih =>
      unfold insertDescBy
      split_ifs with hxy
      · refine List.Pairwise.cons ?_ (ih h.of_cons)
        intro z hz
        rcases mem_insertDescBy score x ys z hz with hzx | hzys
        · exact hzx ▸ le_of_lt hxy
        · exact List.rel_of_pairwise_cons h hzys
      · refine List.Pairwise.cons ?_ h
        intro z hz
        rcases List.mem_cons.mp hz with hzy | hzys
        · exact hzy ▸ not_lt.mp hxy
        · exact (List.rel_of_pairwise_cons h hzys).trans (not_lt.mp hxy)

theorem pairwise_sortDescBy {α : Type} (score : α → ℚ) (l : List α) :
    (sortDescBy score l).Pairwise (fun a b => score b ≤ score a) := by
  induction l with
  | nil => simp [sortDescBy]
  | cons a l ih => exact pairwise_insertDescBy score a _ ih

theorem filter_insertDescBy {α : Type} (score : α → ℚ) (q : ℚ) (x : α) (l : List α) :
    (insertDescBy score x l).filter (fun z => decide (score z = q)) =
      (x :: l).filter (fun z => decide (score z = q)) := by
  induction l with
  | nil => simp [insertDescBy]
  | cons y ys ih =>
      unfold insertDescBy
      split_ifs with hxy
      · by_cases hx : score x = q
        · have hy : ¬ score y = q := by
            intro hyq
            rw [hx] at hxy
            rw [hyq] at hxy
            exact lt_irrefl q hxy
          simp [List.filter_cons, hx, hy, ih]
        · simp [List.filter_cons, hx, ih]
      · rfl

theorem filter_sortDescBy {α : Type} (score : α → ℚ) (q : ℚ) (l : List α) :
    (sortDescBy score l).filter (fun z => decide (score z = q)) =
      l.filter (fun z => decide (score z = q)) := by
  induction l with
  | nil => rfl
  | cons a l ih =>
      calc (sortDescBy score (a :: l)).filter (fun z => decide (score z = q))
          = ((a :: sortDescBy score l)).filter (fun z => decide (score z = q)) :=
            filter_insertDescBy score q a (sortDescBy score l)
        _ = (a :: l).filter (fun z => decide (score z = q)) := by
            simp only [List.filter_cons, ih]

theorem rhe_eq_of_eq_intCast {q : ℚ} {n : ℤ} (h : q = (n : ℚ)) : rhe q = n := by
  subst h
  unfold rhe
  rw [Int.fract_intCast, Int.floor_intCast]
  norm_num

theorem round2_nonneg {x : ℚ} (h : 0 ≤ x) : 0 ≤ round2 x := by
  unfold round2
  have h0 : ((0 : ℤ) : ℚ) ≤ x * 100 := by push_cast; nlinarith
  have := le_rhe_of_le h0
  positivity

theorem round2_le_100 {x : ℚ} (h : x ≤ 100) : round2 x ≤ 100 := by
  unfold round2
  have h0 : x * 100 ≤ ((10000 : ℤ) : ℚ) := by push_cast; nlinarith
  have h1 := rhe_le_of_le h0
  have h2 : ((rhe (x * 100)) : ℚ) ≤ (10000 : ℚ) := by exact_mod_cast h1
  linarith

theorem round3_nonneg {x : ℚ} (h : 0 ≤ x) : 0 ≤ round3 x := by
  unfold round3
  have h0 : ((0 : ℤ) : ℚ) ≤ x * 1000 := by push_cast; nlinarith
  have := le_rhe_of_le h0
  positivity

theorem round3_le_one {x : ℚ} (h : x ≤ 1) : round3 x ≤ 1 := by
  unfold round3
  have h0 : x * 1000 ≤ ((1000 : ℤ) : ℚ) := by push_cast; nlinarith
  have h1 := rhe_le_of_le h0
  have h2 : ((rhe (x * 1000)) : ℚ) ≤ (1000 : ℚ) := by exact_mod_cast h1
  linarith

theorem IA.infrastructureScore_mem (rd : RegionalMetrics) (it : IndustryType) :
    0 ≤ infrastructureScore rd it ∧ infrastructureScore rd it ≤ 100 := by
  unfold infrastructureScore
  exact ⟨clamp0100_nonneg _, clamp0100_le_100 _⟩

theorem IA.talentScore_mem (rd : RegionalMetrics) (cp : CompanyProfile) (it : IndustryType) :
    0 ≤ talentScore rd cp it ∧ talentScore rd cp it ≤ 100 := by
  unfold talentScore
  exact ⟨clamp0100_nonneg _, clamp0100_le_100 _⟩

theorem IA.costEfficiency_mem (rd : RegionalMetrics) (cp : CompanyProfile) (it : IndustryType) :
    0 ≤ costEfficiency rd cp it ∧ costEfficiency rd cp it ≤ 100 := by
  unfold costEfficiency
  exact ⟨clamp0100_nonneg _, clamp0100_le_100 _⟩

theorem IA.marketAccess_mem (rd : RegionalMetrics) (it : IndustryType) :
    0 ≤ marketAccess rd it ∧ marketAccess rd it ≤ 100 := by
  unfold marketAccess
  exact ⟨clamp0100_nonneg _, clamp0100_le_100 _⟩

theorem IA.regulatoryScore_mem (rd : RegionalMetrics) (it : IndustryType) :
    0 ≤ regulatoryScore rd it ∧ regulatoryScore rd it ≤ 100 := by
  unfold regulatoryScore
  exact ⟨clamp0100_nonneg _, clamp0100_le_100 _⟩

theorem IA.politicalStabilityScore_mem (rd : RegionalMetrics) :
    0 ≤ politicalStabilityScore rd ∧ politicalStabilityScore rd ≤ 100 := by
  unfold politicalStabilityScore
  exact ⟨clamp0100_nonneg _, clamp0100_le_100 _⟩

theorem IA.growthPotential_mem (rd : RegionalMetrics) (cp : CompanyProfile) :
    0 ≤ growthPotential rd cp ∧ growthPotential rd cp ≤ 100 := by
  unfold growthPotential
  exact ⟨clamp0100_nonneg _, clamp0100_le_100 _⟩

theorem IA.riskFactorsScore_mem (rd : RegionalMetrics) (cp : CompanyProfile) :
    0 ≤ riskFactorsScore rd cp ∧ riskFactorsScore rd cp ≤ 100 := by
  unfold riskFactorsScore
  exact ⟨clamp0100_nonneg _, clamp0100_le_100 _⟩

theorem IA.compositeScore_mem (rd : RegionalMetrics) (cp : CompanyProfile) :
    0 ≤ compositeScore rd cp ∧ compositeScore rd cp ≤ 100 := by
  obtain ⟨h1a, h1b⟩ := infrastructureScore_mem rd (getIndustryType cp.industry_focus)
  obtain ⟨h2a, h2b⟩ := talentScore_mem rd cp (getIndustryType cp.industry_focus)
  obtain ⟨h3a, h3b⟩ := costEfficiency_mem rd cp (getIndustryType cp.industry_focus)
  obtain ⟨h4a, h4b⟩ := marketAccess_mem rd (getIndustryType cp.industry_focus)
  obtain ⟨h5a, h5b⟩ := regulatoryScore_mem rd (getIndustryType cp.industry_focus)
  obtain ⟨h6a, h6b⟩ := politicalStabilityScore_mem rd
  obtain ⟨h7a, h7b⟩ := growthPotential_mem rd cp
  obtain ⟨h8a, h8b⟩ := riskFactorsScore_mem rd cp
  unfold compositeScore
  unfold digitalReadiness sustainabilityScoreC innovationScore supplyChainScore
  constructor <;> nlinarith

theorem infrastructureScore_boundary : IA.infrastructureScore regionTierBoundary .HEALTHCARE = 95 := by
  norm_num [IA.infrastructureScore, IA.applyIndustryMultiplier, IA.industryMultiplierTable,
    clamp0100, regionTierBoundary]

theorem talentScore_boundary : IA.talentScore regionTierBoundary companyMedium .HEALTHCARE = 100 := by
  norm_num [IA.talentScore, IA.applyIndustryMultiplier, IA.industryMultiplierTable,
    clamp0100, regionTierBoundary, companyMedium,
    show ¬ ("other":String) = "tech" from by decide,
    show ¬ ("other":String) = "manufacturing" from by decide]

theorem costEfficiency_boundary :
    IA.costEfficiency regionTierBoundary companyMedium .HEALTHCARE = 185/2 := by
  norm_num [IA.costEfficiency, IA.applyIndustryMultiplier, IA.industryMultiplierTable,
    clamp0100, regionTierBoundary, companyMedium,
    show ¬ ("medium":String) = "large" from by decide,
    show ¬ ("medium":String) = "small" from by decide]

theorem marketAccess_boundary : IA.marketAccess regionTierBoundary .HEALTHCARE = 100 := by
  norm_num [IA.marketAccess, IA.applyIndustryMultiplier, IA.industryMultiplierTable,
    clamp0100, regionTierBoundary,
    show ¬ ("":String) = "asia-pacific" from by decide,
    show ¬ ("":String) = "europe" from by decide,
    show ¬ ("":String) = "americas" from by decide]

theorem regulatoryScore_boundary : IA.regulatoryScore regionTierBoundary .HEALTHCARE = 90 := by
  norm_num [IA.regulatoryScore, IA.applyIndustryMultiplier, IA.industryMultiplierTable,
    clamp0100, regionTierBoundary]

theorem politicalStability_boundary : IA.politicalStabilityScore regionTierBoundary = 100 := by
  norm_num [IA.politicalStabilityScore, clamp0100, regionTierBoundary]

theorem growthPotential_boundary :
    IA.growthPotential regionTierBoundary companyMedium = 6521/100 := by
  norm_num [IA.growthPotential, clamp0100, regionTierBoundary]

theorem riskFactors_boundary : IA.riskFactorsScore regionTierBoundary companyMedium = 100 := by
  norm_num [IA.riskFactorsScore, clamp0100, regionTierBoundary, companyMedium,
    show ¬ ("medium":String) = "low" from by decide,
    show ¬ ("medium":String) = "high" from by decide]

theorem industry_boundary : IA.getIndustryType companyMedium.industry_focus = .HEALTHCARE := by
  decide

theorem compositeScore_boundary :
    IA.compositeScore regionTierBoundary companyMedium = 21249/250 := by
  simp only [IA.compositeScore]
  rw [industry_boundary, infrastructureScore_boundary, talentScore_boundary,
    costEfficiency_boundary, marketAccess_boundary, regulatoryScore_boundary,
    politicalStability_boundary, growthPotential_boundary, riskFactors_boundary]
  norm_num [IA.digitalReadiness, IA.sustainabilityScoreC, IA.innovationScore,
    IA.supplyChainScore]

theorem round2_boundary : round2 (21249/250) = 85 := by
  have hq : (21249:ℚ)/250 * 100 = 42498/5 := by norm_num
  have hfl : ⌊(42498:ℚ)/5⌋ = 8499 := by norm_num [Int.floor_eq_iff]
  unfold round2 rhe
  rw [hq, Int.fract, hfl]
  norm_num

/-- C10: calculate_investment_score classifies the tier from the un-rounded
composite score but reports the composite rounded to 2 decimals; at
regionTierBoundary with companyMedium the exact composite is 84.996, so the
result reports composite_score = 85.0 together with tier level TIER_2, even
though a true composite of 85.0 is classified TIER_1. -/
theorem claim_tier_from_unrounded_composite :
    (∀ rd cp, (IA.calculateInvestmentScore rd cp).composite_score =
        round2 (IA.compositeScore rd cp) ∧
      (IA.calculateInvestmentScore rd cp).tier_level =
        (IA.determineInvestmentTier (IA.compositeScore rd cp)).name) ∧
    IA.compositeScore regionTierBoundary companyMedium = 84.996 ∧
    (IA.calculateInvestmentScore regionTierBoundary companyMedium).composite_score = 85 ∧
    (IA.calculateInvestmentScore regionTierBoundary companyMedium).tier_level = "TIER_2" ∧
    IA.determineInvestmentTier 85 = IA.InvestmentTier.TIER_1 := by
  refine ⟨fun rd cp => ⟨rfl, rfl⟩, ?_, ?_, ?_, ?_⟩
  · rw [compositeScore_boundary]
    norm_num
  · show round2 (IA.compositeScore regionTierBoundary companyMedium) = 85
    rw [compositeScore_boundary]
    exact round2_boundary
  · show (IA.determineInvestmentTier
      (IA.compositeScore regionTierBoundary companyMedium)).name = "TIER_2"
    rw [compositeScore_boundary]
    norm_num [IA.determineInvestmentTier, IA.tierThreshold, IA.InvestmentTier.name]
  · norm_num [IA.determineInvestmentTier, IA.tierThreshold]

/-- C1: the risk level reported by _generate_risk_assessment is not the
maximum severity over triggered checks: at regionRiskOrder the
political-instability check (whose assigned severity is High) triggers,
but the later market-access check overwrites the level with Medium, so the
assessment reports Medium Risk although the maximum triggered severity is
High. -/
theorem claim_risk_level_not_max_severity :
    IA.riskChecks regionRiskOrder =
      (IA.RiskLevel.MEDIUM, ["Political instability risk", "Limited market access risk"]) ∧
    (IA.generateRiskAssessment regionRiskOrder companyMedium).risk_level = "Medium Risk" ∧
    "Political instability risk" ∈ (IA.riskChecks regionRiskOrder).2 ∧
    IA.checkSeverity "Political instability risk" = IA.RiskLevel.HIGH ∧
    IA.RiskLevel.MEDIUM.rank < IA.RiskLevel.HIGH.rank := by
  have h : IA.riskChecks regionRiskOrder =
      (IA.RiskLevel.MEDIUM, ["Political instability risk", "Limited market access risk"]) := by
    norm_num [IA.riskChecks, regionRiskOrder]
    simp
  refine ⟨h, ?_, ?_, by decide, by decide⟩
  · simp only [IA.generateRiskAssessment, h]
    simp [IA.RiskLevel.value]
  · rw [h]
    simp

/-- C3 counterexample: a composite score strictly below 55 is classified
TIER_3, the very same Tier 3 / Emerging Opportunity tier that receives
scores in [55, 70): _determine_investment_tier has no lowest residual tier
distinct from Tier 3. -/
theorem claim_no_residual_tier_below_55 :
    IA.determineInvestmentTier 54.99 = IA.InvestmentTier.TIER_3 ∧
    IA.determineInvestmentTier 60 = IA.InvestmentTier.TIER_3 := by
  constructor <;> norm_num [IA.determineInvestmentTier, IA.tierThreshold]

/-- C3 amended: the investment tier classifier is a three-tier
if-elif-else with lower-edge-inclusive boundaries (85.00 is Tier 1, 84.99
Tier 2, 70.00 Tier 2, 69.99 Tier 3) and every score below 70 — including
every score below 55 — falls into Tier 3; a four-tier classifier with a
distinct lowest residual tier exists only in calculate_development_tier of
the regional system, on its 0-to-1 development score with thresholds
0.85 / 0.70 / 0.55. -/
theorem claim_tier_boundaries_amended :
    IA.determineInvestmentTier 85 = IA.InvestmentTier.TIER_1 ∧
    IA.determineInvestmentTier 84.99 = IA.InvestmentTier.TIER_2 ∧
    IA.determineInvestmentTier 70 = IA.InvestmentTier.TIER_2 ∧
    IA.determineInvestmentTier 69.99 = IA.InvestmentTier.TIER_3 ∧
    (∀ s : ℚ, s < 70 → IA.determineInvestmentTier s = IA.InvestmentTier.TIER_3) ∧
    (∀ r : RRS.RegionalProfile, 0.85 ≤ RRS.devScore r →
      RRS.calculateDevelopmentTier r = RRS.DevelopmentTier.PREMIUM) ∧
    (∀ r : RRS.RegionalProfile, RRS.devScore r < 0.55 →
      RRS.calculateDevelopmentTier r = RRS.DevelopmentTier.EMERGING) := by
  refine ⟨by norm_num [IA.determineInvestmentTier, IA.tierThreshold],
    by norm_num [IA.determineInvestmentTier, IA.tierThreshold],
    by norm_num [IA.determineInvestmentTier, IA.tierThreshold],
    by norm_num [IA.determineInvestmentTier, IA.tierThreshold],
    fun s hs => ?_, fun r hr => ?_, fun r hr => ?_⟩
  · unfold IA.determineInvestmentTier IA.tierThreshold
    rw [if_neg (by push_neg; linarith), if_neg (by push_neg; linarith)]
  · simp only [RRS.calculateDevelopmentTier]
    rw [if_pos hr]
  · simp only [RRS.calculateDevelopmentTier]
    rw [if_neg (not_le.mpr (by linarith)), if_neg (not_le.mpr (by linarith)),
      if_neg (not_le.mpr (by linarith))]

/-- Witness for the amended C3 theorem: its universal parts applied at the
score 42, at regionInRange and at regionDevZero. -/
theorem claim_tier_boundaries_amended_witness :
    IA.determineInvestmentTier 42 = IA.InvestmentTier.TIER_3 ∧
    RRS.calculateDevelopmentTier regionInRange = RRS.DevelopmentTier.PREMIUM ∧
    RRS.calculateDevelopmentTier regionDevZero = RRS.DevelopmentTier.EMERGING := by
  refine ⟨claim_tier_boundaries_amended.2.2.2.2.1 42 (by norm_num),
    claim_tier_boundaries_amended.2.2.2.2.2.1 regionInRange ?_,
    claim_tier_boundaries_amended.2.2.2.2.2.2 regionDevZero ?_⟩
  · norm_num [RRS.devScore, regionInRange]
  · norm_num [RRS.devScore, regionDevZero]

theorem round2_of_intCast {q : ℚ} {n : ℤ} (h : q * 100 = (n : ℚ)) : round2 q = (n : ℚ) / 100 := by
  unfold round2
  rw [rhe_eq_of_eq_intCast h]

theorem talentScore_talentTop : EIA.talentScore regionTalentTop companyTechEIA = 100 := by
  norm_num [EIA.talentScore, clamp0100, regionTalentTop, companyTechEIA]

theorem adjustScores_technology (cs : EIA.ComponentScores) :
    EIA.adjustScores companyTechEIA.industry_focus cs =
      { cs with
        talent := cs.talent * 1.3
        digital_readiness := cs.digital_readiness * 1.4
        innovation := cs.innovation * 1.5
        cost_efficiency := cs.cost_efficiency * 0.9 } := rfl

/-- C2 counterexample: at the valid input regionTalentTop (all normalized
fields in [0, 1]) with a technology company, the enhanced algorithm
reports the talent component score as 130, outside [0, 100]: the industry
multipliers are applied after the per-component clamping. -/
theorem claim_component_above_100 :
    (EIA.calculateInvestmentScore regionTalentTop companyTechEIA).component_scores.talent = 130 ∧
    (100 : ℚ) <
      (EIA.calculateInvestmentScore regionTalentTop companyTechEIA).component_scores.talent := by
  have h : (EIA.calculateInvestmentScore regionTalentTop
      companyTechEIA).component_scores.talent = 130 := by
    show round2 ((EIA.adjustScores companyTechEIA.industry_focus
      (EIA.componentScores regionTalentTop companyTechEIA)).talent) = 130
    rw [adjustScores_technology]
    show round2 ((EIA.componentScores regionTalentTop companyTechEIA).talent * 1.3) = 130
    simp only [EIA.componentScores]
    rw [talentScore_talentTop]
    have h100 : (100 : ℚ) * 1.3 * 100 = ((13000 : ℤ) : ℚ) := by norm_num
    rw [round2_of_intCast h100]
    norm_num
  exact ⟨h, by rw [h]; norm_num⟩

/-- C2 amended: in investment_algorithm (multipliers applied inside each
component before its clamp) all 12 reported component scores and the
composite score lie in [0, 100] for every input; in the enhanced variant
this holds for the pre-adjustment component scores, but the post-clamp
industry multipliers can push reported components above 100. -/
theorem claim_component_bounds_amended :
    (∀ rd cp, IAScoresIn0100 (IA.calculateInvestmentScore rd cp).component_scores ∧
      0 ≤ (IA.calculateInvestmentScore rd cp).composite_score ∧
      (IA.calculateInvestmentScore rd cp).composite_score ≤ 100) ∧
    (∀ rd cp, EIAScoresIn0100 (EIA.componentScores rd cp)) := by
  constructor
  · intro rd cp
    refine ⟨?_, ?_, ?_⟩
    · unfold IAScoresIn0100
      exact ⟨⟨round2_nonneg (IA.infrastructureScore_mem rd _).1,
          round2_le_100 (IA.infrastructureScore_mem rd _).2⟩,
        ⟨round2_nonneg (IA.talentScore_mem rd cp _).1,
          round2_le_100 (IA.talentScore_mem rd cp _).2⟩,
        ⟨round2_nonneg (IA.costEfficiency_mem rd cp _).1,
          round2_le_100 (IA.costEfficiency_mem rd cp _).2⟩,
        ⟨round2_nonneg (IA.marketAccess_mem rd _).1,
          round2_le_100 (IA.marketAccess_mem rd _).2⟩,
        ⟨round2_nonneg (IA.regulatoryScore_mem rd _).1,
          round2_le_100 (IA.regulatoryScore_mem rd _).2⟩,
        ⟨round2_nonneg (IA.politicalStabilityScore_mem rd).1,
          round2_le_100 (IA.politicalStabilityScore_mem rd).2⟩,
        ⟨round2_nonneg (IA.growthPotential_mem rd cp).1,
          round2_le_100 (IA.growthPotential_mem rd cp).2⟩,
        ⟨round2_nonneg (IA.riskFactorsScore_mem rd cp).1,
          round2_le_100 (IA.riskFactorsScore_mem rd cp).2⟩,
        ⟨round2_nonneg (by norm_num [IA.digitalReadiness]), round2_le_100 (by norm_num [IA.digitalReadiness])⟩,
        ⟨round2_nonneg (by norm_num [IA.sustainabilityScoreC]), round2_le_100 (by norm_num [IA.sustainabilityScoreC])⟩,
        ⟨round2_nonneg (by norm_num [IA.innovationScore]), round2_le_100 (by norm_num [IA.innovationScore])⟩,
        ⟨round2_nonneg (by norm_num [IA.supplyChainScore]), round2_le_100 (by norm_num [IA.supplyChainScore])⟩⟩
    · exact round2_nonneg (IA.compositeScore_mem rd cp).1
    · exact round2_le_100 (IA.compositeScore_mem rd cp).2
  · intro rd cp
    unfold EIAScoresIn0100
    exact ⟨⟨clamp0100_nonneg _, clamp0100_le_100 _⟩,
      ⟨clamp0100_nonneg _, clamp0100_le_100 _⟩,
      ⟨clamp0100_nonneg _, clamp0100_le_100 _⟩,
      ⟨clamp0100_nonneg _, clamp0100_le_100 _⟩,
      ⟨clamp0100_nonneg _, clamp0100_le_100 _⟩,
      ⟨clamp0100_nonneg _, clamp0100_le_100 _⟩,
      ⟨clamp0100_nonneg _, clamp0100_le_100 _⟩,
      ⟨clamp0100_nonneg _, clamp0100_le_100 _⟩,
      ⟨clamp0100_nonneg _, clamp0100_le_100 _⟩,
      ⟨clamp0100_nonneg _, clamp0100_le_100 _⟩,
      ⟨clamp0100_nonneg _, clamp0100_le_100 _⟩,
      ⟨clamp0100_nonneg _, clamp0100_le_100 _⟩⟩

/-- The infrastructure component computed with no industry adjustment;
follows the spec wording that an absent multiplier entry means 1.0 for
every component. -/
def infrastructureScoreNoAdjust (rd : IA.RegionalMetrics) : ℚ :=
  let base := rd.infrastructure_score * 100
  let base := if rd.infrastructure_score > 0.8 then base + 10 else base
  let base := if rd.infrastructure_score < 0.4 then base - 20 else base
  clamp0100 base

/-- C8 counterexample: the unknown industry string "electronics" falls back
to MANUFACTURING in _get_industry_type, whose table scales infrastructure
by 1.2: at regionHalfInfra the engine computes an infrastructure component
of 60 where the no-adjustment value is 50, so an unknown industry is not
mapped to a neutral entry by investment_algorithm. -/
theorem claim_unknown_industry_not_neutral :
    IA.getIndustryType "electronics" = IA.IndustryType.MANUFACTURING ∧
    IA.infrastructureScore regionHalfInfra (IA.getIndustryType "electronics") = 60 ∧
    infrastructureScoreNoAdjust regionHalfInfra = 50 ∧
    IA.infrastructureScore regionHalfInfra (IA.getIndustryType "electronics") ≠
      infrastructureScoreNoAdjust regionHalfInfra := by
  have hit : IA.getIndustryType "electronics" = IA.IndustryType.MANUFACTURING := by decide
  have h60 : IA.infrastructureScore regionHalfInfra (IA.getIndustryType "electronics") = 60 := by
    rw [hit]
    norm_num [IA.infrastructureScore, IA.applyIndustryMultiplier, IA.industryMultiplierTable,
      clamp0100, regionHalfInfra, regionRiskOrder]
  have h50 : infrastructureScoreNoAdjust regionHalfInfra = 50 := by
    norm_num [infrastructureScoreNoAdjust, clamp0100, regionHalfInfra, regionRiskOrder]
  refine ⟨hit, h60, h50, ?_⟩
  rw [h60, h50]
  norm_num

/-- C8 amended: every categorical lookup is a total function with a
default, so no input raises, and with one exception the default is
neutral: every industry string whose lowercasing is outside the enhanced
engine's table adjusts no component; a risk tolerance outside low/high
takes the same neutral else-branch of the risk-factors component as every
other such value, in both engines; an investment size outside large/small
takes the same neutral else-branch of the cost-efficiency component, in
both engines. The exception: investment_algorithm maps every industry
string outside its mapping to MANUFACTURING, whose multiplier table is
non-neutral (infrastructure entry 1.2), so there an unknown industry gets
the Manufacturing-adjusted result, not the unadjusted one (healthcare, by
contrast, has no table entry at all). -/
theorem claim_unknown_categorical_amended :
    (∀ s : String, pyLower s ∉ (["manufacturing", "tech", "technology", "logistics",
        "finance", "healthcare", "energy", "retail", "real_estate"] : List String) →
      IA.getIndustryType s = IA.IndustryType.MANUFACTURING) ∧
    IA.industryMultiplierTable IA.IndustryType.MANUFACTURING "infrastructure" = some 1.2 ∧
    (∀ comp, IA.industryMultiplierTable IA.IndustryType.HEALTHCARE comp = none) ∧
    (∀ s : String, pyLower s ∉ (["technology", "manufacturing", "logistics",
        "finance"] : List String) →
      ∀ cs, EIA.adjustScores s cs = cs) ∧
    (∀ (rd : IA.RegionalMetrics) (cp cq : IA.CompanyProfile),
      cp.risk_tolerance ≠ "low" → cp.risk_tolerance ≠ "high" →
      cq.risk_tolerance ≠ "low" → cq.risk_tolerance ≠ "high" →
      IA.riskFactorsScore rd cp = IA.riskFactorsScore rd cq) ∧
    (∀ (rd : IA.RegionalMetrics) (cp cq : IA.CompanyProfile) (it : IA.IndustryType),
      cp.investment_size ≠ "large" → cp.investment_size ≠ "small" →
      cq.investment_size ≠ "large" → cq.investment_size ≠ "small" →
      IA.costEfficiency rd cp it = IA.costEfficiency rd cq it) ∧
    (∀ (rd : EIA.RegionalMetrics) (cp cq : EIA.CompanyProfile),
      cp.risk_tolerance ≠ "low" → cp.risk_tolerance ≠ "high" →
      cq.risk_tolerance ≠ "low" → cq.risk_tolerance ≠ "high" →
      EIA.riskFactorsScore rd cp = EIA.riskFactorsScore rd cq) ∧
    (∀ (rd : EIA.RegionalMetrics) (cp cq : EIA.CompanyProfile),
      cp.investment_size ≠ "large" → cp.investment_size ≠ "small" →
      cq.investment_size ≠ "large" → cq.investment_size ≠ "small" →
      EIA.costEfficiency rd cp = EIA.costEfficiency rd cq) := by
  refine ⟨?_, rfl, fun comp => rfl, ?_, ?_, ?_, ?_, ?_⟩
  · intro s h
    unfold IA.getIndustryType
    split <;> first
      | rfl
      | (rename_i heq
         exact absurd (show pyLower s ∈ _ from by rw [heq]; decide) h)
  · intro s h cs
    unfold EIA.adjustScores
    split <;> first
      | rfl
      | (rename_i heq
         exact absurd (show pyLower s ∈ _ from by rw [heq]; decide) h)
  · intro rd cp cq h1 h2 h3 h4
    simp only [IA.riskFactorsScore]
    rw [if_neg h1, if_neg h2, if_neg h3, if_neg h4]
  · intro rd cp cq it h1 h2 h3 h4
    simp only [IA.costEfficiency]
    rw [if_neg h1, if_neg h2, if_neg h3, if_neg h4]
  · intro rd cp cq h1 h2 h3 h4
    simp only [EIA.riskFactorsScore]
    rw [if_neg h1, if_neg h2, if_neg h3, if_neg h4]
  · intro rd cp cq h1 h2 h3 h4
    simp only [EIA.costEfficiency]
    rw [if_neg h1, if_neg h2, if_neg h3, if_neg h4]

/-- Witness for the amended C8 theorem: each universal part applied at a
concrete input — the unmapped industry string "electronics", and company
profiles whose risk tolerance or investment size is the out-of-enumeration
string "unknown" against the in-enumeration neutral values. -/
theorem claim_unknown_categorical_amended_witness :
    IA.getIndustryType "electronics" = IA.IndustryType.MANUFACTURING ∧
    EIA.adjustScores "electronics" ⟨1, 2, 3, 4, 5, 6, 7, 8, 9, 10, 11, 12⟩ =
      ⟨1, 2, 3, 4, 5, 6, 7, 8, 9, 10, 11, 12⟩ ∧
    IA.riskFactorsScore regionTierBoundary companyMedium =
      IA.riskFactorsScore regionTierBoundary
        { companyMedium with risk_tolerance := "unknown" } ∧
    IA.costEfficiency regionTierBoundary companyMedium IA.IndustryType.HEALTHCARE =
      IA.costEfficiency regionTierBoundary
        { companyMedium with investment_size := "unknown" } IA.IndustryType.HEALTHCARE ∧
    EIA.riskFactorsScore regionTalentTop companyTechEIA =
      EIA.riskFactorsScore regionTalentTop
        { companyTechEIA with risk_tolerance := "unknown" } ∧
    EIA.costEfficiency regionTalentTop companyTechEIA =
      EIA.costEfficiency regionTalentTop
        { companyTechEIA with investment_size := "unknown" } :=
  ⟨claim_unknown_categorical_amended.1 "electronics" (by decide),
    claim_unknown_categorical_amended.2.2.2.1 "electronics" (by decide) _,
    claim_unknown_categorical_amended.2.2.2.2.1 regionTierBoundary companyMedium
      { companyMedium with risk_tolerance := "unknown" }
      (by decide) (by decide) (by decide) (by decide),
    claim_unknown_categorical_amended.2.2.2.2.2.1 regionTierBoundary companyMedium
      { companyMedium with investment_size := "unknown" } IA.IndustryType.HEALTHCARE
      (by decide) (by decide) (by decide) (by decide),
    claim_unknown_categorical_amended.2.2.2.2.2.2.1 regionTalentTop companyTechEIA
      { companyTechEIA with risk_tolerance := "unknown" }
      (by decide) (by decide) (by decide) (by decide),
    claim_unknown_categorical_amended.2.2.2.2.2.2.2 regionTalentTop companyTechEIA
      { companyTechEIA with investment_size := "unknown" }
      (by decide) (by decide) (by decide) (by decide)⟩

theorem infraMono_aux : ∀ it : IA.IndustryType, ∀ rd : IA.RegionalMetrics,
    IA.infrastructureScore { rd with infrastructure_score := 0.5 } it ≤
      IA.infrastructureScore { rd with infrastructure_score := 0.9 } it := by
  intro it rd
  cases it <;>
    norm_num [IA.infrastructureScore, IA.applyIndustryMultiplier, clamp0100,
      show IA.industryMultiplierTable .TECHNOLOGY "infrastructure" = none from rfl,
      show IA.industryMultiplierTable .MANUFACTURING "infrastructure" = some 1.2 from rfl,
      show IA.industryMultiplierTable .LOGISTICS "infrastructure" = some 1.4 from rfl,
      show IA.industryMultiplierTable .FINANCE "infrastructure" = none from rfl,
      show IA.industryMultiplierTable .HEALTHCARE "infrastructure" = none from rfl,
      show IA.industryMultiplierTable .ENERGY "infrastructure" = none from rfl,
      show IA.industryMultiplierTable .RETAIL "infrastructure" = none from rfl,
      show IA.industryMultiplierTable .REAL_ESTATE "infrastructure" = none from rfl]

theorem infraMonoEIA_aux : ∀ rd : EIA.RegionalMetrics,
    EIA.infrastructureScore { rd with infrastructure_score := 0.5 } ≤
      EIA.infrastructureScore { rd with infrastructure_score := 0.9 } := by
  intro rd
  norm_num [EIA.infrastructureScore, clamp0100]

set_option maxHeartbeats 2000000 in
/-- C7: increasing infrastructure_score from 0.5 to 0.9, all other fields
fixed, never decreases the composite score, in either engine: the
infrastructure component is pointwise monotone under every industry
multiplier, no other component reads infrastructure_score, and the
aggregation weights are positive. -/
theorem claim_infrastructure_monotone :
    (∀ (rd : IA.RegionalMetrics) (cp : IA.CompanyProfile),
      IA.compositeScore { rd with infrastructure_score := 0.5 } cp ≤
        IA.compositeScore { rd with infrastructure_score := 0.9 } cp) ∧
    (∀ (rd : EIA.RegionalMetrics) (cp : EIA.CompanyProfile),
      EIA.compositeScore { rd with infrastructure_score := 0.5 } cp ≤
        EIA.compositeScore { rd with infrastructure_score := 0.9 } cp) := by
  constructor
  · intro rd cp
    have h1 : IA.talentScore { rd with infrastructure_score := 0.5 } cp =
        IA.talentScore { rd with infrastructure_score := 0.9 } cp := rfl
    have h2 : IA.costEfficiency { rd with infrastructure_score := 0.5 } cp =
        IA.costEfficiency { rd with infrastructure_score := 0.9 } cp := rfl
    have h3 : IA.marketAccess { rd with infrastructure_score := 0.5 } =
        IA.marketAccess { rd with infrastructure_score := 0.9 } := rfl
    have h4 : IA.regulatoryScore { rd with infrastructure_score := 0.5 } =
        IA.regulatoryScore { rd with infrastructure_score := 0.9 } := rfl
    have h5 : IA.politicalStabilityScore { rd with infrastructure_score := 0.5 } =
        IA.politicalStabilityScore { rd with infrastructure_score := 0.9 } := rfl
    have h6 : IA.growthPotential { rd with infrastructure_score := 0.5 } cp =
        IA.growthPotential { rd with infrastructure_score := 0.9 } cp := rfl
    have h7 : IA.riskFactorsScore { rd with infrastructure_score := 0.5 } cp =
        IA.riskFactorsScore { rd with infrastructure_score := 0.9 } cp := rfl
    have h8 : IA.digitalReadiness { rd with infrastructure_score := 0.5 } cp =
        IA.digitalReadiness { rd with infrastructure_score := 0.9 } cp := rfl
    have h9 : IA.sustainabilityScoreC { rd with infrastructure_score := 0.5 } cp =
        IA.sustainabilityScoreC { rd with infrastructure_score := 0.9 } cp := rfl
    have h10 : IA.innovationScore { rd with infrastructure_score := 0.5 } cp =
        IA.innovationScore { rd with infrastructure_score := 0.9 } cp := rfl
    have h11 : IA.supplyChainScore { rd with infrastructure_score := 0.5 } cp =
        IA.supplyChainScore { rd with infrastructure_score := 0.9 } cp := rfl
    simp only [IA.compositeScore]
    rw [h1, h2, h3, h4, h5, h6, h7, h8, h9, h10, h11]
    have := infraMono_aux (IA.getIndustryType cp.industry_focus) rd
    linarith
  · intro rd cp
    have h1 : EIA.talentScore { rd with infrastructure_score := 0.5 } cp =
        EIA.talentScore { rd with infrastructure_score := 0.9 } cp := rfl
    have h2 : EIA.costEfficiency { rd with infrastructure_score := 0.5 } cp =
        EIA.costEfficiency { rd with infrastructure_score := 0.9 } cp := rfl
    have h3 : EIA.marketAccess { rd with infrastructure_score := 0.5 } =
        EIA.marketAccess { rd with infrastructure_score := 0.9 } := rfl
    have h4 : EIA.regulatoryScore { rd with infrastructure_score := 0.5 } =
        EIA.regulatoryScore { rd with infrastructure_score := 0.9 } := rfl
    have h5 : EIA.politicalStabilityScore { rd with infrastructure_score := 0.5 } =
        EIA.politicalStabilityScore { rd with infrastructure_score := 0.9 } := rfl
    have h6 : EIA.growthPotential { rd with infrastructure_score := 0.5 } cp =
        EIA.growthPotential { rd with infrastructure_score := 0.9 } cp := rfl
    have h7 : EIA.riskFactorsScore { rd with infrastructure_score := 0.5 } cp =
        EIA.riskFactorsScore { rd with infrastructure_score := 0.9 } cp := rfl
    have h8 : EIA.digitalReadiness { rd with infrastructure_score := 0.5 } cp =
        EIA.digitalReadiness { rd with infrastructure_score := 0.9 } cp := rfl
    have h9 : EIA.sustainabilityScoreC { rd with infrastructure_score := 0.5 } cp =
        EIA.sustainabilityScoreC { rd with infrastructure_score := 0.9 } cp := rfl
    have h10 : EIA.innovationScore { rd with infrastructure_score := 0.5 } cp =
        EIA.innovationScore { rd with infrastructure_score := 0.9 } cp := rfl
    have h11 : EIA.supplyChainScore { rd with infrastructure_score := 0.5 } cp =
        EIA.supplyChainScore { rd with infrastructure_score := 0.9 } cp := rfl
    have hinf := infraMonoEIA_aux rd
    simp only [EIA.compositeScore, EIA.componentScores, EIA.weightedSum]
    rw [h1, h2, h3, h4, h5, h6, h7, h8, h9, h10, h11]
    unfold EIA.adjustScores
    split <;> simp only <;> nlinarith [hinf]

theorem round3_of_intCast {q : ℚ} {n : ℤ} (h : q * 1000 = (n : ℚ)) :
    round3 q = (n : ℚ) / 1000 := by
  unfold round3
  rw [rhe_eq_of_eq_intCast h]

theorem intTrunc_intCast (n : ℤ) : intTrunc ((n : ℤ) : ℚ) = n := by
  unfold intTrunc
  split_ifs with h
  · exact Int.floor_intCast n
  · rw [show -((n : ℤ) : ℚ) = (((-n : ℤ)) : ℚ) by push_cast; ring, Int.floor_intCast]
    omega

theorem matchScore_shrinking :
    RRS.calculateMatchScore entityNoInterests regionShrinking = -(25 : ℚ)/1000 := by
  have h : RRS.calculateMatchScore entityNoInterests regionShrinking = round3 (-(1 : ℚ)/40) := by
    simp only [RRS.calculateMatchScore, entityNoInterests, regionShrinking]
    norm_num
  rw [h, round3_of_intCast (show (-(1 : ℚ)/40) * 1000 = (((-25 : ℤ)) : ℚ) by norm_num)]
  norm_num

/-- C4: the break_even_months computation of the regional matching system
divides by the projected ROI with no non-positive guard: at the failing
input (entityNoInterests, regionShrinking) the projected base ROI is
-0.625 ≤ 0 and the code returns -3840 months instead of the "N/A"
sentinel (a base ROI of exactly 0 is a ZeroDivisionError, modelled none);
the guard exists in the enhanced algorithm, and investment_algorithm's
bucketed variant returns "5+ years" rather than "N/A" for roi ≤ 0. -/
theorem claim_break_even_unguarded :
    RRS.baseRoi entityNoInterests regionShrinking = -(5 : ℚ)/8 ∧
    RRS.baseRoi entityNoInterests regionShrinking ≤ 0 ∧
    RRS.breakEvenMonths entityNoInterests regionShrinking = some (-3840) ∧
    EIA.breakEvenMonths (-5) = none ∧
    IA.calculateBreakEvenTime (-5) companyMedium = "5+ years" := by
  have hb : RRS.baseRoi entityNoInterests regionShrinking = -(5 : ℚ)/8 := by
    unfold RRS.baseRoi
    rw [matchScore_shrinking]
    norm_num
  refine ⟨hb, by rw [hb]; norm_num, ?_, ?_, ?_⟩
  · unfold RRS.breakEvenMonths
    rw [hb, if_neg (by norm_num)]
    rw [show (24 : ℚ) / (-(5 : ℚ)/8 / 100) = (((-3840 : ℤ)) : ℚ) by norm_num]
    rw [intTrunc_intCast]
  · unfold EIA.breakEvenMonths
    rw [if_pos (by norm_num)]
  · unfold IA.calculateBreakEvenTime
    rw [if_neg (by norm_num), if_neg (by norm_num), if_neg (by norm_num)]

theorem alignment_mem (l ops : List RRS.ProjectType) :
    0 ≤ (((l.dedup.filter (fun p => p ∈ ops)).length : ℚ) / ((max l.length 1 : ℕ) : ℚ)) ∧
      (((l.dedup.filter (fun p => p ∈ ops)).length : ℚ) / ((max l.length 1 : ℕ) : ℚ)) ≤ 1 := by
  have hd : (l.dedup.filter (fun p => p ∈ ops)).length ≤ l.length :=
    le_trans (List.length_filter_le _ _) (List.Sublist.length_le (List.dedup_sublist l))
  have hm : (l.dedup.filter (fun p => p ∈ ops)).length ≤ max l.length 1 :=
    le_trans hd (le_max_left _ _)
  have hpos : (0 : ℚ) < ((max l.length 1 : ℕ) : ℚ) := by
    have : 1 ≤ max l.length 1 := le_max_right _ _
    exact_mod_cast lt_of_lt_of_le Nat.zero_lt_one this
  constructor
  · exact div_nonneg (by positivity) (le_of_lt hpos)
  · rw [div_le_one hpos]
    exact_mod_cast hm

theorem matchScore_hotGrowth :
    RRS.calculateMatchScore entityAligned regionHotGrowth = (1075 : ℚ)/1000 := by
  have h : RRS.calculateMatchScore entityAligned regionHotGrowth = round3 ((43 : ℚ)/40) := by
    simp only [RRS.calculateMatchScore, entityAligned, regionHotGrowth]
    norm_num [show ([RRS.ProjectType.TECHNOLOGY] : List RRS.ProjectType).dedup =
      [RRS.ProjectType.TECHNOLOGY] from rfl]
  rw [h, round3_of_intCast (show ((43 : ℚ)/40) * 1000 = (((1075 : ℤ)) : ℚ) by norm_num)]
  norm_num

/-- C5 counterexample: calculate_match_score applies no clamp, and at
(entityAligned, regionHotGrowth) — growth rate 20 percent, every other
metric maximal — it returns 1.075, above 1; and calculate_match of
revolutionary_system, whose min caps only the upper side, returns the
negative score -0.5 when the region's growth rate is negative. -/
theorem claim_match_score_outside_unit :
    RRS.calculateMatchScore entityAligned regionHotGrowth = (1075 : ℚ)/1000 ∧
    (1 : ℚ) < RRS.calculateMatchScore entityAligned regionHotGrowth ∧
    RS.calculateMatch entitiesOne regionsNeg "E1" "R2" = -(1 : ℚ)/2 ∧
    RS.calculateMatch entitiesOne regionsNeg "E1" "R2" < 0 := by
  have h1 := matchScore_hotGrowth
  have h2 : RS.calculateMatch entitiesOne regionsNeg "E1" "R2" = -(1 : ℚ)/2 := by
    have hE : RS.lookup entitiesOne "E1" =
        some { name := "Lone Entity", etype := .COMPANY, capabilities := [],
               interests := ["Aerospace"] } := rfl
    have hR : RS.lookup regionsNeg "R2" =
        some { name := "Shrinking Region", tier := .ESTABLISHED, population := 100000,
               growth_rate := -5, projects := [] } := rfl
    simp only [RS.calculateMatch, hE, hR]
    norm_num [RS.tierMultiplier, min_def,
      show (["Aerospace"] : List String).dedup = ["Aerospace"] from rfl]
  exact ⟨h1, by rw [h1]; norm_num, h2, by rw [h2]; norm_num⟩

/-- C5 amended: calculate_match of revolutionary_system never exceeds 1
(its min caps the upper side) but has no lower clamp, and
calculate_match_score of the regional system has no clamp at all; the
[0, 1] bound holds for the latter exactly on in-range inputs: growth rate
and unemployment rate within [0, 10] and every normalized metric within
[0, 1]. Both scores are rounded (3 decimals) where the source rounds. -/
theorem claim_match_score_bounds_amended :
    (∀ entities regions eid rid, RS.calculateMatch entities regions eid rid ≤ 1) ∧
    (∀ (e : RRS.EntityProfile) (r : RRS.RegionalProfile),
      0 ≤ r.growth_rate → r.growth_rate ≤ 10 →
      0 ≤ r.infrastructure_score → r.infrastructure_score ≤ 1 →
      0 ≤ r.talent_availability → r.talent_availability ≤ 1 →
      0 ≤ r.cost_of_living → r.cost_of_living ≤ 1 →
      0 ≤ r.political_stability → r.political_stability ≤ 1 →
      0 ≤ r.regulatory_ease → r.regulatory_ease ≤ 1 →
      0 ≤ r.unemployment_rate → r.unemployment_rate ≤ 10 →
      0 ≤ RRS.calculateMatchScore e r ∧ RRS.calculateMatchScore e r ≤ 1) := by
  constructor
  · intro entities regions eid rid
    unfold RS.calculateMatch
    cases RS.lookup entities eid with
    | none =>
        cases RS.lookup regions rid with
        | none => norm_num
        | some region => norm_num
    | some entity =>
        cases RS.lookup regions rid with
        | none => norm_num
        | some region =>
            simp only
            exact le_trans (min_le_left _ _) (by norm_num)
  · intro e r hg0 hg1 hi0 hi1 ht0 ht1 hc0 hc1 hp0 hp1 hr0 hr1 hu0 hu1
    obtain ⟨ha0, ha1⟩ := alignment_mem e.project_interests r.project_opportunities
    unfold RRS.calculateMatchScore
    by_cases hpref : r.region_id ∈ e.preferred_regions
    · simp only [if_pos hpref]
      exact ⟨round3_nonneg (by nlinarith), round3_le_one (by nlinarith)⟩
    · simp only [if_neg hpref]
      exact ⟨round3_nonneg (by nlinarith), round3_le_one (by nlinarith)⟩

/-- Witness for the amended C5 theorem: both parts applied at concrete
inputs, the in-range part at entityAligned and regionInRange. -/
theorem claim_match_score_bounds_amended_witness :
    RS.calculateMatch entitiesOne regionsOne "E1" "R1" ≤ 1 ∧
    (0 ≤ RRS.calculateMatchScore entityAligned regionInRange ∧
      RRS.calculateMatchScore entityAligned regionInRange ≤ 1) := by
  refine ⟨claim_match_score_bounds_amended.1 entitiesOne regionsOne "E1" "R1",
    claim_match_score_bounds_amended.2 entityAligned regionInRange ?_ ?_ ?_ ?_ ?_ ?_ ?_ ?_ ?_
      ?_ ?_ ?_ ?_ ?_⟩ <;>
    norm_num [regionInRange]

/-- C9 counterexample: an unknown entity id does not get a typed not-found
outcome: calculate_match yields the in-band score 0.0 and find_matches the
empty list — exactly the values a successful computation produces for the
known entity E1 against the same registry, so the caller cannot tell the
lookup failure apart from a successful scoring with no qualifying match. -/
theorem claim_not_found_outcome_in_band :
    RS.lookup entitiesOne "ZZZ" = none ∧
    RS.lookup entitiesOne "E1" =
      some { name := "Lone Entity", etype := .COMPANY, capabilities := [],
             interests := ["Aerospace"] } ∧
    RS.calculateMatch entitiesOne regionsOne "ZZZ" "R1" = 0 ∧
    RS.calculateMatch entitiesOne regionsOne "E1" "R1" = 0 ∧
    RS.findMatches entitiesOne regionsOne "ZZZ" 3 = [] ∧
    RS.findMatches entitiesOne regionsOne "E1" 3 = [] := by
  have hZ : RS.lookup entitiesOne "ZZZ" = (none : Option RS.Entity) := rfl
  have hE : RS.lookup entitiesOne "E1" =
      some { name := "Lone Entity", etype := .COMPANY, capabilities := [],
             interests := ["Aerospace"] } := rfl
  have hR : RS.lookup regionsOne "R1" =
      some { name := "Quiet Region", tier := .ESTABLISHED, population := 100000,
             growth_rate := 0, projects := [] } := rfl
  have hmZ : RS.calculateMatch entitiesOne regionsOne "ZZZ" "R1" = 0 := by
    simp only [RS.calculateMatch, hZ, hR]
    norm_num
  have hmE : RS.calculateMatch entitiesOne regionsOne "E1" "R1" = 0 := by
    simp only [RS.calculateMatch, hE, hR]
    norm_num [RS.tierMultiplier, min_def,
      show (["Aerospace"] : List String).dedup = ["Aerospace"] from rfl]
  have hcZ : RS.matchCandidates entitiesOne regionsOne "ZZZ" = [] := by
    unfold RS.matchCandidates
    rw [List.filterMap_eq_nil_iff]
    intro p hp
    rw [show p = ("R1",
      { name := "Quiet Region", tier := .ESTABLISHED, population := 100000,
        growth_rate := 0, projects := [] }) from by simpa [regionsOne] using hp]
    simp only
    rw [hmZ]
    norm_num
  have hcE : RS.matchCandidates entitiesOne regionsOne "E1" = [] := by
    unfold RS.matchCandidates
    rw [List.filterMap_eq_nil_iff]
    intro p hp
    rw [show p = ("R1",
      { name := "Quiet Region", tier := .ESTABLISHED, population := 100000,
        growth_rate := 0, projects := [] }) from by simpa [regionsOne] using hp]
    simp only
    rw [hmE]
    norm_num
  refine ⟨hZ, hE, hmZ, hmE, ?_, ?_⟩
  · unfold RS.findMatches
    rw [hcZ]
    rfl
  · unfold RS.findMatches
    rw [hcE]
    rfl

/-- C9 amended: an entity id missing from the registry degrades to in-band
defaults — calculate_match returns 0.0 for every region and find_matches
returns the empty list (and find_best_matches of the regional system also
returns []); no exception is raised, but the outcome is a plain score and
a plain list of the same type as successful results, not a typed
not-found value. -/
theorem claim_unknown_entity_defaults_amended :
    ∀ entities regions eid limit,
      RS.lookup entities eid = none →
      (∀ rid, RS.calculateMatch entities regions eid rid = 0) ∧
      RS.findMatches entities regions eid limit = [] := by
  intro entities regions eid limit h
  have hm : ∀ rid, RS.calculateMatch entities regions eid rid = 0 := by
    intro rid
    unfold RS.calculateMatch
    rw [h]
    cases RS.lookup regions rid <;> norm_num
  refine ⟨hm, ?_⟩
  have hc : RS.matchCandidates entities regions eid = [] := by
    unfold RS.matchCandidates
    rw [List.filterMap_eq_nil_iff]
    intro p _
    simp only
    rw [hm p.1]
    norm_num
  unfold RS.findMatches
  rw [hc]
  simp [sortDescBy]

/-- Witness for the amended C9 theorem: applied to the one-entity registry
at the absent id ZZZ. -/
theorem claim_unknown_entity_defaults_amended_witness :
    (∀ rid, RS.calculateMatch entitiesOne regionsOne "ZZZ" rid = 0) ∧
    RS.findMatches entitiesOne regionsOne "ZZZ" 3 = [] :=
  claim_unknown_entity_defaults_amended entitiesOne regionsOne "ZZZ" 3 rfl

/-- C6: for every registry state, entity id and limit, find_matches is
sorted non-increasingly by match_score, its length is at most the limit,
and the sort is stable: for any score value, the entries carrying that
score appear in the sorted list exactly in their original registry order
(their filter is unchanged by sorting). The same ordering and truncation
hold for find_best_matches of the regional system. -/
theorem claim_find_matches_sorted_truncated :
    (∀ entities regions eid limit,
      (RS.findMatches entities regions eid limit).Pairwise
        (fun a b => b.match_score ≤ a.match_score) ∧
      (RS.findMatches entities regions eid limit).length ≤ limit ∧
      (∀ q : ℚ,
        (sortDescBy (fun m => m.match_score)
            (RS.matchCandidates entities regions eid)).filter
          (fun m => decide (m.match_score = q)) =
        (RS.matchCandidates entities regions eid).filter
          (fun m => decide (m.match_score = q)))) ∧
    (∀ entities regions eid limit,
      (RRS.findBestMatches entities regions eid limit).Pairwise
        (fun a b => b.2 ≤ a.2) ∧
      (RRS.findBestMatches entities regions eid limit).length ≤ limit) := by
  constructor
  · intro entities regions eid limit
    refine ⟨?_, ?_, fun q => filter_sortDescBy _ q _⟩
    · exact (pairwise_sortDescBy _ _).sublist (List.take_sublist _ _)
    · unfold RS.findMatches
      exact List.length_take_le _ _
  · intro entities regions eid limit
    unfold RRS.findBestMatches
    cases RS.lookup entities eid with
    | none => simp
    | some entity =>
        exact ⟨(pairwise_sortDescBy _ _).sublist (List.take_sublist _ _),
          List.length_take_le _ _⟩
